import Mathlib

/-!
Verification of the plant-health analyzer (`plant_health_analyzer.py` /
`plant_database.py`).

Shallow embedding conventions:
* Python `str` is `String`; all string primitives the analyzer uses
  (substring test, `find`, slicing, `split()`, `strip()`, `lower()`,
  `startswith`, `title()`, `replace`) are re-implemented below over
  `List Char` so that every definition evaluates inside the kernel.
* Python `float` is modelled by `ℚ` (exact rational arithmetic; IEEE-754
  rounding is not modelled — no value compared below sits at a rounding
  boundary of the thresholds involved).
* Python dicts with a fixed key schema become structures; dicts used as
  ordered tables become ordered association lists (Python dicts preserve
  insertion order, which the analyzer relies on for iteration).
* The regular-expression engine is not re-implemented.  Its output on a
  given text — the list of `(pattern-key, match-start, match-end)` triples
  in pattern-table order, and the boolean results of the three auxiliary
  regex scans — is supplied as an explicit `ExtractOracle` argument.  All
  per-match processing (negation filtering, confidence scoring,
  de-duplication, sorting) is embedded exactly.  Universal theorems hold
  for every oracle; concrete runs use the matches the Python regexes
  produce on the given text, which can be checked by hand against the
  pattern table in `_build_symptom_patterns_from_db`.
* The mutable knowledge base (`PlantDatabase.conditions`) is threaded as
  explicit state `DB`; `process_analysis` returns the result together with
  the post-call database state.
-/

namespace PlantDoctor

/-! ### String primitives (Python semantics, executable over `List Char`) -/

/-- Python `needle in hay` (contiguous substring test) on char lists. -/
def infixOf (needle : List Char) : List Char → Bool
  | [] => needle.isEmpty
  | c :: t => needle.isPrefixOf (c :: t) || infixOf needle t

/-- Python `needle in hay` for strings. -/
def strContains (hay needle : String) : Bool :=
  infixOf needle.data hay.data

/-- Helper for `strFind`: first index at which `needle` occurs. -/
def strFindAux (needle : List Char) : List Char → Nat → Option Nat
  | [], i => if needle.isEmpty then some i else none
  | c :: t, i => if needle.isPrefixOf (c :: t) then some i else strFindAux needle t (i + 1)

/-- Python `hay.find(needle)`: `some` index of first occurrence, `none` for -1. -/
def strFind (hay needle : String) : Option Nat :=
  strFindAux needle.data hay.data 0

/-- Python slice `s[a:b]` with non-negative clamped bounds. -/
def pySlice (s : String) (a b : Nat) : String :=
  String.mk ((s.data.drop a).take (b - a))

/-- Python `s.lower()` (ASCII). -/
def pyLower (s : String) : String :=
  String.mk (s.data.map Char.toLower)

/-- Python `s.strip()`. -/
def pyStrip (s : String) : String :=
  String.mk (((s.data.dropWhile Char.isWhitespace).reverse.dropWhile Char.isWhitespace).reverse)

/-- Helper for `pyWords`: split on whitespace runs, discarding empties. -/
def wordsAux (acc : List Char) : List Char → List String
  | [] => if acc.isEmpty then [] else [String.mk acc.reverse]
  | c :: t =>
    if c.isWhitespace then
      if acc.isEmpty then wordsAux [] t else String.mk acc.reverse :: wordsAux [] t
    else wordsAux (c :: acc) t

/-- Python `s.split()` (no separator argument). -/
def pyWords (s : String) : List String :=
  wordsAux [] s.data

/-- Python `s.startswith(pre)`. -/
def pyStartsWith (s pre : String) : Bool :=
  pre.data.isPrefixOf s.data

/-- Python `words[-n:]`. -/
def lastN (n : Nat) (l : List α) : List α :=
  l.drop (l.length - n)

/-- Helper for `pyTitle`: uppercase a letter at a word start, lowercase the rest. -/
def pyTitleAux : Bool → List Char → List Char
  | _, [] => []
  | prevAlpha, c :: t =>
    (if c.isAlpha then (if prevAlpha then c.toLower else c.toUpper) else c) ::
      pyTitleAux c.isAlpha t

/-- Python `s.title()` (ASCII). -/
def pyTitle (s : String) : String :=
  String.mk (pyTitleAux false s.data)

/-- Python `s.replace("_", " ")`. -/
def replaceUnderscores (s : String) : String :=
  String.mk (s.data.map (fun c => if c = '_' then ' ' else c))

/-- Python `int(q)` (truncation toward zero). -/
def pyInt (q : ℚ) : Int :=
  if q < 0 then -(⌊-q⌋) else ⌊q⌋

/-- Round to nearest integer, ties to even (CPython float formatting). -/
def roundHalfEven (q : ℚ) : Int :=
  let f : Int := ⌊q⌋
  let r : ℚ := q - (f : ℚ)
  if r < 1 / 2 then f
  else if r > 1 / 2 then f + 1
  else if f % 2 = 0 then f else f + 1

/-- Python `f"{q:.0%}"` on the exact rational value. -/
def pyFormatPercent (q : ℚ) : String :=
  toString (roundHalfEven (q * 100)) ++ "%"

/-! ### Stable descending sort by a rational key (Python `sorted(..., reverse=True)`) -/

/-- Insert `x` before the first element with a strictly smaller key
(keeps equal-key elements in their original order, like Python sorting). -/
def insertDescBy (key : α → ℚ) (x : α) : List α → List α
  | [] => [x]
  | y :: ys => if key y ≤ key x then x :: y :: ys else y :: insertDescBy key x ys

/-- Stable insertion sort, descending by `key`; agrees with Python
`sorted(l, key=key, reverse=True)`. -/
def sortDescBy (key : α → ℚ) : List α → List α
  | [] => []
  | x :: xs => insertDescBy key x (sortDescBy key xs)

/-- Order-preserving de-duplication of strings (Python seen-set plus append). -/
def dedupStrings (l : List String) : List String :=
  l.foldl (fun acc a => if acc.contains a then acc else acc ++ [a]) []


/-! ### Data model -/

/-- A treatment template from a knowledge-base condition record
(Python dict with keys "type", "action", "details", optional "products").
The Python key "type" is rendered `ttype` (field-name only; values are
untouched).  The stray "urgency" key present on a few synthesized
templates is never read by the analyzer (urgency is always recomputed by
`_determine_treatment_urgency`) and is therefore not modelled. -/
structure TreatmentT where
  ttype : String := "general"
  action : String := ""
  details : List String := []
  products : List String := []
deriving Repr, DecidableEq

/-- A knowledge-base condition record (one value of `PlantDatabase.conditions`).
The unread keys `severity_indicators` and `seasonal_info` are not
modelled.  Ad-hoc info dicts built by the analyzer (healthy / generic /
fallback conditions) reuse this structure with the default values, which
matches every `.get(key, default)` access the analyzer performs. -/
structure ConditionInfo where
  name : String := ""
  symptoms : List String := []
  keywords : List String := []
  description : String := ""
  treatments : List TreatmentT := []
  prevention : List String := []
  common_plants : List String := []
  recovery_time : List (String × String) := []
deriving Repr, DecidableEq

/-- The mutable conditions table (`PlantDatabase.conditions`), as an
insertion-ordered association list. -/
abbrev DB := List (String × ConditionInfo)

/-- An extracted symptom (one entry of the `detected_symptoms` list). -/
structure Symptom where
  name : String
  text_match : String
  confidence : ℚ
  source : String
deriving Repr, DecidableEq

/-- A scored condition (one entry of the `possible_conditions` list).
The "role" key is only set on secondary conditions, hence an `Option`. -/
structure Cond where
  name : String
  score : ℚ
  matched_symptoms : List String
  info : ConditionInfo
  confidence : ℚ
  source : String
  category : String
  role : Option String := none
deriving Repr, DecidableEq

/-- A treatment entry of the output `treatments` list.  Keys that some
Python dict literals omit ("products", "condition") default to the values
that the consuming `.get` calls would supply. -/
structure OutTreatment where
  ttype : String
  action : String
  details : List String := []
  products : List String := []
  urgency : String
  condition : Option String := none
  source : String
deriving Repr, DecidableEq

/-- The Diagnosis Result: the ten-field dict returned by
`process_analysis`, as a record (so a structurally complete result is
enforced by the type). -/
structure DiagnosisResult where
  raw_analysis : String
  detected_symptoms : List Symptom
  severity_level : String
  possible_conditions : List Cond
  treatments : List OutTreatment
  immediate_actions : List String
  prevention_tips : List String
  confidence_score : String
  analysis_type : String
  recommendations : String
deriving Repr, DecidableEq

/-! ### Knowledge-base data (`PlantDatabase.__init__`)

Transcribed verbatim from `plant_database.py`.  The advice strings below
contain the exact (mojibake) characters committed in that file. -/

def plantConditions : List (String × ConditionInfo) := [
("fungal_leaf_spot",
 { name := "Fungal Leaf Spot",
   symptoms := ["spots", "browning", "circular_lesions", "blackening"],
   keywords := ["brown spots", "circular", "lesions", "fungal", "spots with halos"],
   description := "Common fungal infection causing circular spots on leaves with yellow halos",
   treatments := [
    { ttype := "fungicide",
      action := "Apply copper-based fungicide",
      details := ["Spray every 7-14 days until symptoms improve", "Apply in early morning or evening to avoid leaf burn", "Ensure complete leaf coverage including undersides"],
      products := ["Copper sulfate", "Copper hydroxide", "Bordeaux mixture"] },
    { ttype := "cultural",
      action := "Improve plant hygiene and air circulation",
      details := ["Remove affected leaves immediately and dispose (don\x27t compost)", "Clean up fallen debris around plants", "Increase spacing between plants for air flow", "Water at soil level, avoid wetting leaves"],
      products := [] },
    { ttype := "organic",
      action := "Use organic fungicides",
      details := ["Neem oil spray every 7-10 days", "Baking soda solution (1 tsp per quart water)", "Compost tea spray for beneficial microorganisms"],
      products := [] }],
   prevention := ["Choose disease-resistant plant varieties", "Avoid overhead watering, use drip irrigation", "Ensure good air circulation around plants", "Don\x27t work with plants when they\x27re wet", "Rotate crops annually in vegetable gardens"],
   common_plants := ["tomato", "rose", "pepper", "cucumber", "bean", "squash"],
   recovery_time := [("mild", "1-2 weeks"), ("moderate", "2-4 weeks"), ("severe", "4-8 weeks")] }),
("rust_disease",
 { name := "Rust Disease",
   symptoms := ["rust_colored", "spots", "reddening", "powdery", "yellow_spots"],
   keywords := ["rust", "orange", "pustules", "reddish", "orange powder", "spores"],
   description := "Fungal disease causing orange/rust colored pustules, often on leaf undersides",
   treatments := [
    { ttype := "fungicide",
      action := "Apply systemic fungicide",
      details := ["Use triazole-based fungicides (myclobutanil, propiconazole)", "Apply every 10-14 days during active infection", "Rotate fungicide types to prevent resistance", "Apply preventively in high-risk periods"],
      products := [] },
    { ttype := "removal",
      action := "Remove infected plant parts",
      details := ["Prune affected leaves and stems immediately", "Dispose of infected material in trash (not compost)", "Disinfect pruning tools with 70% alcohol between cuts", "Thin plants to improve air circulation"],
      products := [] }],
   prevention := ["Plant rust-resistant varieties when available", "Avoid overcrowding plants", "Water early in the day so leaves dry quickly", "Remove alternate hosts (wild plants that harbor rust)", "Apply preventive fungicide sprays in susceptible plants"],
   common_plants := ["wheat", "corn", "beans", "hollyhock", "snapdragon", "rose", "apple", "cedar"],
   recovery_time := [("mild", "2-3 weeks"), ("moderate", "4-6 weeks"), ("severe", "6-12 weeks")] }),
("powdery_mildew",
 { name := "Powdery Mildew",
   symptoms := ["powdery", "fuzzy_growth", "yellowing", "white_coating"],
   keywords := ["white powder", "dusty", "mildew", "cottony", "flour-like", "white coating"],
   description := "Fungal disease creating white powdery coating on leaves, stems, and buds",
   treatments := [
    { ttype := "organic",
      action := "Apply baking soda solution",
      details := ["Mix 1 tsp baking soda + 1/2 tsp liquid soap per quart water", "Spray weekly on affected areas", "Apply in evening to avoid leaf burn"],
      products := [] },
    { ttype := "fungicide",
      action := "Use sulfur-based fungicide",
      details := ["Apply sulfur dust or wettable sulfur spray", "Don\x27t apply when temperature exceeds 85¬∞F (30¬∞C)", "Repeat every 7-10 days until symptoms disappear"],
      products := [] },
    { ttype := "biological",
      action := "Apply beneficial microorganisms",
      details := ["Use Bacillus subtilis-based products", "Apply milk spray (1 part milk to 10 parts water)", "Encourage beneficial soil microbes with compost"],
      products := [] }],
   prevention := ["Improve air circulation around plants", "Avoid overhead watering", "Plant in full sun locations when possible", "Remove infected plant debris regularly", "Choose resistant cultivars"],
   common_plants := ["cucumber", "squash", "pumpkin", "rose", "grape", "zinnia", "phlox", "lilac"],
   recovery_time := [("mild", "1-2 weeks"), ("moderate", "2-4 weeks"), ("severe", "4-6 weeks")] }),
("anthracnose",
 { name := "Anthracnose",
   symptoms := ["dark_spots", "sunken_lesions", "browning", "wilting"],
   keywords := ["dark lesions", "sunken spots", "anthracnose", "cankers"],
   description := "Fungal disease causing dark, sunken lesions on leaves, stems, and fruits",
   treatments := [
    { ttype := "fungicide",
      action := "Apply copper or chlorothalonil fungicide",
      details := ["Begin applications at first sign of disease", "Spray every 7-14 days during wet weather", "Ensure good coverage of all plant surfaces"],
      products := [] }],
   prevention := ["Avoid overhead irrigation", "Provide good air circulation", "Remove and destroy infected plant debris", "Plant resistant varieties"],
   common_plants := ["tomato", "pepper", "cucumber", "bean", "strawberry", "grape"],
   recovery_time := [("mild", "2-3 weeks"), ("moderate", "3-5 weeks"), ("severe", "6-10 weeks")] }),
("downy_mildew",
 { name := "Downy Mildew",
   symptoms := ["yellowing", "fuzzy_growth_underside", "wilting"],
   keywords := ["downy", "fuzzy underside", "yellow patches", "grayish growth"],
   description := "Fungal-like disease causing yellow patches with fuzzy growth on leaf undersides",
   treatments := [
    { ttype := "fungicide",
      action := "Apply systemic fungicide",
      details := ["Use mancozeb or metalaxyl-based products", "Apply every 7-10 days during cool, wet conditions", "Spray early morning for best absorption"],
      products := [] }],
   prevention := ["Improve air circulation", "Avoid overhead watering", "Space plants properly", "Remove infected debris"],
   common_plants := ["lettuce", "spinach", "cucumber", "grape", "rose"],
   recovery_time := [("mild", "1-2 weeks"), ("moderate", "2-4 weeks"), ("severe", "4-8 weeks")] }),
("black_spot",
 { name := "Black Spot",
   symptoms := ["black_spots", "yellowing", "defoliation"],
   keywords := ["black spots", "black lesions", "yellow halos", "rose disease"],
   description := "Common rose disease causing black spots with yellow halos on leaves",
   treatments := [
    { ttype := "fungicide",
      action := "Apply preventive fungicide spray",
      details := ["Use myclobutanil or tebuconazole", "Start applications in early spring", "Spray every 7-14 days during growing season"],
      products := [] }],
   prevention := ["Choose black spot resistant rose varieties", "Provide good air circulation", "Water at soil level", "Clean up fallen leaves"],
   common_plants := ["rose"],
   recovery_time := [("mild", "2-3 weeks"), ("moderate", "4-6 weeks"), ("severe", "season-long")] }),
("bacterial_spot",
 { name := "Bacterial Spot",
   symptoms := ["spots", "browning", "holes", "yellowing", "water_soaked"],
   keywords := ["bacterial", "water-soaked", "angular", "lesions", "shot holes"],
   description := "Bacterial infection causing dark spots with yellow halos, often with shot-hole appearance",
   treatments := [
    { ttype := "bactericide",
      action := "Apply copper bactericide",
      details := ["Use copper hydroxide or copper sulfate", "Apply every 7-10 days during wet weather", "Start treatment early for best results", "Add spreader-sticker for better coverage"],
      products := [] },
    { ttype := "cultural",
      action := "Improve growing conditions",
      details := ["Reduce humidity around plants", "Avoid working with wet plants", "Use drip irrigation instead of sprinklers", "Remove infected plant material immediately"],
      products := [] }],
   prevention := ["Use pathogen-free seeds and transplants", "Rotate crops annually (3-4 year rotation)", "Avoid overhead irrigation", "Disinfect tools regularly", "Don\x27t save seeds from infected plants"],
   common_plants := ["tomato", "pepper", "peach", "plum", "cherry"],
   recovery_time := [("mild", "2-3 weeks"), ("moderate", "3-6 weeks"), ("severe", "season-long damage")] }),
("fire_blight",
 { name := "Fire Blight",
   symptoms := ["wilting", "blackening", "shepherd_crook", "cankers"],
   keywords := ["fire blight", "blackened shoots", "shepherd\x27s crook", "bacterial"],
   description := "Serious bacterial disease causing shoots to appear burned or scorched",
   treatments := [
    { ttype := "antibiotic",
      action := "Apply streptomycin during bloom",
      details := ["Apply during bloom period for prevention", "Use only as preventive measure", "Follow label instructions carefully"],
      products := [] },
    { ttype := "pruning",
      action := "Remove infected branches",
      details := ["Cut 12 inches below visible symptoms", "Disinfect tools with 70% alcohol between cuts", "Burn or dispose of infected material", "Prune during dry weather"],
      products := [] }],
   prevention := ["Choose fire blight resistant varieties", "Avoid high-nitrogen fertilizers", "Don\x27t prune during bloom", "Remove suckers and water sprouts"],
   common_plants := ["apple", "pear", "quince", "crabapple"],
   recovery_time := [("mild", "season-long"), ("severe", "may kill plant")] }),
("crown_gall",
 { name := "Crown Gall",
   symptoms := ["galls", "swelling", "tumor_growth"],
   keywords := ["crown gall", "galls", "tumors", "swelling", "bacterial"],
   description := "Bacterial disease causing tumor-like growths on roots and stems",
   treatments := [
    { ttype := "removal",
      action := "Remove infected plants",
      details := ["Remove entire infected plant including roots", "Don\x27t compost infected material", "Sterilize soil if possible", "Wait 3-4 years before replanting susceptible species"],
      products := [] }],
   prevention := ["Inspect plants before purchasing", "Avoid wounding plant roots and stems", "Use biological control (Agrobacterium radiobacter K84)", "Plant in well-draining soil"],
   common_plants := ["fruit trees", "roses", "grapes", "ornamental trees"],
   recovery_time := [("any", "plant rarely recovers, prevention is key")] }),
("mosaic_virus",
 { name := "Mosaic Virus",
   symptoms := ["mosaic_pattern", "yellowing", "mottling", "stunting"],
   keywords := ["mosaic", "mottled", "virus", "yellow-green pattern"],
   description := "Viral disease causing mosaic or mottled yellow-green patterns on leaves",
   treatments := [
    { ttype := "removal",
      action := "Remove infected plants",
      details := ["Remove entire infected plant immediately", "Disinfect tools with 10% bleach solution", "Control aphids and other virus vectors", "Don\x27t compost infected material"],
      products := [] }],
   prevention := ["Use virus-free seeds and plants", "Control aphids and whiteflies", "Remove weeds that can harbor viruses", "Don\x27t smoke around tomato plants"],
   common_plants := ["tomato", "pepper", "cucumber", "squash", "bean"],
   recovery_time := [("any", "no cure - remove infected plants")] }),
("yellows_virus",
 { name := "Yellows Virus",
   symptoms := ["yellowing", "stunting", "witches_broom"],
   keywords := ["yellows", "virus", "stunted", "witches broom"],
   description := "Viral disease causing yellowing, stunting, and abnormal growth patterns",
   treatments := [
    { ttype := "removal",
      action := "Remove infected plants",
      details := ["Remove infected plants immediately", "Control leafhoppers (primary vector)", "Use reflective mulches to deter insects"],
      products := [] }],
   prevention := ["Control leafhopper populations", "Remove infected plants quickly", "Use row covers on young plants"],
   common_plants := ["aster", "lettuce", "carrot", "celery"],
   recovery_time := [("any", "no cure - remove infected plants")] }),
("nitrogen_deficiency",
 { name := "Nitrogen Deficiency",
   symptoms := ["yellowing", "lower_leaves", "stunting", "pale_green"],
   keywords := ["pale", "chlorosis", "stunted", "yellow lower", "nitrogen"],
   description := "Lack of nitrogen causing yellowing from bottom leaves upward and stunted growth",
   treatments := [
    { ttype := "fertilizer",
      action := "Apply nitrogen-rich fertilizer",
      details := ["Use balanced NPK fertilizer with higher N (like 10-5-5)", "Apply liquid fertilizer for quick results (fish emulsion, 20-20-20)", "Side-dress with compost or aged manure", "For quick fix: diluted liquid fertilizer every 2 weeks"],
      products := [] },
    { ttype := "organic",
      action := "Add organic nitrogen sources",
      details := ["Apply well-aged chicken or cow manure", "Use fish emulsion (diluted per label)", "Add blood meal or feather meal to soil", "Plant nitrogen-fixing cover crops"],
      products := [] }],
   prevention := ["Regular soil testing (annually)", "Maintain proper soil pH (6.0-7.0 for most plants)", "Add compost annually to improve soil structure", "Follow proper fertilization schedule", "Mulch to prevent nutrient leaching"],
   common_plants := ["vegetables", "annuals", "lawns", "leafy greens", "corn"],
   recovery_time := [("mild", "1-2 weeks"), ("moderate", "2-4 weeks"), ("severe", "4-6 weeks")] }),
("potassium_deficiency",
 { name := "Potassium Deficiency",
   symptoms := ["leaf_edges", "browning", "yellowing", "weak_stems", "marginal_burn"],
   keywords := ["brown edges", "marginal burn", "weak stems", "potassium", "scorched edges"],
   description := "Potassium deficiency causing brown leaf edges, weak growth, and poor disease resistance",
   treatments := [
    { ttype := "fertilizer",
      action := "Apply potassium fertilizer",
      details := ["Use potassium sulfate (sulfate of potash) - best for most plants", "Apply muriate of potash (potassium chloride) for salt-tolerant plants", "Use balanced fertilizer with adequate K (like 10-10-10)", "Apply kelp meal for slow-release organic option"],
      products := [] },
    { ttype := "organic",
      action := "Add organic potassium sources",
      details := ["Apply wood ash sparingly (raises pH)", "Use granite dust for slow-release K", "Add compost made with banana peels and other K-rich materials", "Apply kelp meal or seaweed extract"],
      products := [] }],
   prevention := ["Regular soil testing to monitor K levels", "Avoid over-fertilizing with nitrogen (can interfere with K uptake)", "Maintain proper soil moisture (drought reduces K availability)", "Add organic matter to improve nutrient retention", "Test soil pH - K is less available in very acid or alkaline soils"],
   common_plants := ["tomato", "potato", "fruit trees", "flowers", "vegetables"],
   recovery_time := [("mild", "2-3 weeks"), ("moderate", "3-5 weeks"), ("severe", "5-8 weeks")] }),
("phosphorus_deficiency",
 { name := "Phosphorus Deficiency",
   symptoms := ["purple_reddish", "stunting", "delayed_maturity", "dark_green"],
   keywords := ["purple", "reddish", "phosphorus", "stunted", "dark green"],
   description := "Phosphorus deficiency causing purple/reddish coloring, especially on older leaves",
   treatments := [
    { ttype := "fertilizer",
      action := "Apply phosphorus fertilizer",
      details := ["Use bone meal for slow-release organic P", "Apply rock phosphate for long-term P supply", "Use high-P starter fertilizer (like 10-20-10)", "Apply liquid phosphorus fertilizer for quick response"],
      products := [] }],
   prevention := ["Maintain soil pH between 6.0-7.0 for optimal P availability", "Add organic matter to improve P release", "Avoid over-watering which can leach P", "Regular soil testing"],
   common_plants := ["corn", "tomato", "beans", "brassicas"],
   recovery_time := [("mild", "2-4 weeks"), ("moderate", "4-6 weeks"), ("severe", "6-10 weeks")] }),
("iron_deficiency",
 { name := "Iron Deficiency (Chlorosis)",
   symptoms := ["yellowing", "between_veins", "green_veins", "new_growth"],
   keywords := ["interveinal", "veins green", "iron chlorosis", "yellow between veins"],
   description := "Iron deficiency causing yellowing between leaf veins while veins remain green",
   treatments := [
    { ttype := "supplement",
      action := "Apply iron chelate",
      details := ["Use chelated iron (EDDHA, EDTA, or DTPA forms)", "Apply to soil around root zone, not to leaves", "Water in thoroughly after application", "May need multiple applications 4-6 weeks apart"],
      products := [] },
    { ttype := "soil_amendment",
      action := "Improve soil conditions for iron uptake",
      details := ["Lower soil pH if too alkaline (add sulfur)", "Improve drainage if soil is waterlogged", "Add organic matter like compost or peat moss", "Avoid over-watering and over-fertilizing"],
      products := [] }],
   prevention := ["Maintain proper soil pH (6.0-6.8 for most plants)", "Ensure good drainage to prevent root problems", "Add organic matter annually", "Use acidifying fertilizers for acid-loving plants", "Avoid cultivating around roots"],
   common_plants := ["azalea", "rhododendron", "blueberry", "oak", "maple", "citrus"],
   recovery_time := [("mild", "3-4 weeks"), ("moderate", "4-8 weeks"), ("severe", "8-12 weeks")] }),
("magnesium_deficiency",
 { name := "Magnesium Deficiency",
   symptoms := ["yellowing", "between_veins", "lower_leaves", "reddish"],
   keywords := ["magnesium", "interveinal yellowing", "older leaves", "red tinge"],
   description := "Magnesium deficiency causing yellowing between veins, starting with older leaves",
   treatments := [
    { ttype := "supplement",
      action := "Apply Epsom salt (magnesium sulfate)",
      details := ["Dissolve 1-2 tablespoons per gallon water", "Apply as soil drench around root zone", "Can also spray on leaves (weaker solution)", "Repeat every 2-3 weeks until symptoms improve"],
      products := [] }],
   prevention := ["Regular soil testing for Mg levels", "Add compost with good Mg content", "Avoid over-application of potassium (can interfere with Mg)", "Maintain proper soil pH"],
   common_plants := ["tomato", "pepper", "rose", "citrus"],
   recovery_time := [("mild", "2-3 weeks"), ("moderate", "3-5 weeks"), ("severe", "5-8 weeks")] }),
("calcium_deficiency",
 { name := "Calcium Deficiency",
   symptoms := ["blossom_end_rot", "tip_burn", "stunting"],
   keywords := ["blossom end rot", "calcium", "tip burn", "black spots"],
   description := "Calcium deficiency often appearing as blossom end rot in fruits or tip burn in leaves",
   treatments := [
    { ttype := "supplement",
      action := "Apply calcium amendments",
      details := ["Add gypsum (calcium sulfate) to soil", "Use lime if soil is also acidic", "Apply liquid calcium for faster results", "Ensure consistent soil moisture"],
      products := [] }],
   prevention := ["Maintain consistent soil moisture", "Mulch to prevent moisture fluctuations", "Add organic matter to improve calcium availability", "Test and adjust soil pH if needed"],
   common_plants := ["tomato", "pepper", "apple", "lettuce"],
   recovery_time := [("mild", "affects new growth in 2-4 weeks"), ("severe", "season-long issue")] }),
("water_stress",
 { name := "Water Stress",
   symptoms := ["wilting", "leaf_edges", "browning", "curling", "dropping"],
   keywords := ["drought", "overwatering", "root rot", "wilted", "water stress"],
   description := "Stress from improper watering - either too much or too little water",
   treatments := [
    { ttype := "watering",
      action := "Adjust watering schedule",
      details := ["Check soil moisture 2-3 inches deep before watering", "Water deeply but less frequently", "Ensure proper drainage - no standing water", "For overwatered plants: stop watering temporarily"],
      products := [] },
    { ttype := "mulching",
      action := "Apply organic mulch",
      details := ["Add 2-3 inches of organic mulch around plants", "Keep mulch 2-3 inches away from plant stems", "Use wood chips, straw, or shredded leaves", "Helps retain moisture and regulate soil temperature"],
      products := [] },
    { ttype := "soil_improvement",
      action := "Improve soil structure",
      details := ["Add compost to improve water retention in sandy soils", "Add perlite or sand to improve drainage in clay soils", "Create raised beds for better drainage", "Install drip irrigation for consistent moisture"],
      products := [] }],
   prevention := ["Install drip irrigation or soaker hoses", "Group plants by water needs", "Improve soil with organic matter annually", "Monitor soil moisture regularly", "Use moisture meters for accuracy"],
   common_plants := ["all plants susceptible"],
   recovery_time := [("mild", "3-7 days"), ("moderate", "1-2 weeks"), ("severe", "2-4 weeks or plant death")] }),
("heat_stress",
 { name := "Heat Stress",
   symptoms := ["wilting", "leaf_edges", "curling", "scorch", "sunburn"],
   keywords := ["heat", "scorch", "sun scald", "temperature", "heat stress"],
   description := "Stress from excessive heat or intense sun exposure",
   treatments := [
    { ttype := "shading",
      action := "Provide temporary shade",
      details := ["Use shade cloth (30-50% shade)", "Move containers to shadier locations", "Create temporary shade with umbrellas or tarps", "Water early morning and evening during heat waves"],
      products := [] },
    { ttype := "cooling",
      action := "Cool the environment",
      details := ["Mist around plants (not on leaves) to cool air", "Use reflective mulches to reduce soil temperature", "Ensure adequate air circulation", "Avoid fertilizing during heat stress"],
      products := [] }],
   prevention := ["Plant in appropriate locations for your climate", "Provide afternoon shade in hot climates", "Maintain consistent soil moisture", "Use reflective or light-colored mulch", "Choose heat-tolerant varieties"],
   common_plants := ["cool-season crops", "tender plants", "houseplants", "newly transplanted plants"],
   recovery_time := [("mild", "1-3 days after cooling"), ("moderate", "1 week"), ("severe", "may cause permanent damage")] }),
("cold_stress",
 { name := "Cold Stress/Frost Damage",
   symptoms := ["blackening", "wilting", "water_soaked", "collapsed_tissue"],
   keywords := ["frost", "freeze", "cold damage", "blackened", "frozen"],
   description := "Damage from cold temperatures or frost exposure",
   treatments := [
    { ttype := "damage_assessment",
      action := "Assess and prune damage",
      details := ["Wait until new growth appears to assess damage", "Prune dead/damaged tissue back to healthy growth", "Don\x27t fertilize immediately - let plant recover", "Provide protection from further cold"],
      products := [] }],
   prevention := ["Cover plants before predicted frost", "Use row covers, blankets, or frost cloth", "Water soil before cold nights (wet soil holds heat)", "Plant cold-hardy varieties for your zone", "Bring containers indoors or to protected areas"],
   common_plants := ["tender vegetables", "tropical plants", "young plants"],
   recovery_time := [("mild", "2-4 weeks"), ("severe", "may not recover")] }),
("insect_damage",
 { name := "Insect Damage",
   symptoms := ["holes", "chewed", "yellowing", "stippling", "distorted"],
   keywords := ["eaten", "chewed", "holes", "pest", "insect", "bugs"],
   description := "Damage caused by various insects feeding on plant leaves, stems, or roots",
   treatments := [
    { ttype := "organic_pesticide",
      action := "Apply organic insecticides",
      details := ["Neem oil spray (affects soft-bodied insects)", "Insecticidal soap for aphids, whiteflies, spider mites", "Diatomaceous earth for crawling insects", "Bt (Bacillus thuringiensis) for caterpillars"],
      products := [] },
    { ttype := "biological",
      action := "Encourage beneficial insects",
      details := ["Plant flowers to attract ladybugs, lacewings, parasitic wasps", "Avoid broad-spectrum pesticides that kill beneficials", "Release beneficial insects if available locally", "Provide habitat with diverse plantings"],
      products := [] },
    { ttype := "physical",
      action := "Physical pest control",
      details := ["Hand-pick large insects like caterpillars", "Use row covers to exclude flying pests", "Apply sticky traps for flying insects", "Spray aphids off with water hose"],
      products := [] }],
   prevention := ["Regular plant inspection (weekly during growing season)", "Remove weeds that harbor pest insects", "Use row covers on vulnerable young plants", "Maintain healthy soil and plants for natural resistance", "Rotate crops to break pest cycles"],
   common_plants := ["vegetables", "ornamentals", "fruit trees", "herbs"],
   recovery_time := [("mild", "1-2 weeks"), ("moderate", "2-4 weeks"), ("severe", "4-8 weeks")] }),
("aphid_infestation",
 { name := "Aphid Infestation",
   symptoms := ["curling", "yellowing", "sticky_honeydew", "sooty_mold"],
   keywords := ["aphids", "curled leaves", "sticky", "honeydew", "ants"],
   description := "Small soft-bodied insects that suck plant juices, causing leaf curl and honeydew",
   treatments := [
    { ttype := "organic",
      action := "Apply insecticidal soap or neem oil",
      details := ["Spray insecticidal soap every 3-5 days", "Use neem oil spray in evening to avoid sun damage", "Spray undersides of leaves where aphids hide", "Rinse plants with water first to remove some aphids"],
      products := [] },
    { ttype := "biological",
      action := "Introduce natural predators",
      details := ["Release ladybugs in garden", "Plant flowers that attract lacewings", "Encourage birds with bird houses and water", "Plant dill, fennel, yarrow to attract beneficial wasps"],
      products := [] }],
   prevention := ["Inspect plants regularly, especially new growth", "Use reflective mulches to confuse aphids", "Avoid over-fertilizing with nitrogen", "Remove aphid-infested weeds"],
   common_plants := ["roses", "vegetables", "fruit trees", "ornamentals"],
   recovery_time := [("mild", "1 week"), ("moderate", "2-3 weeks"), ("severe", "3-4 weeks")] }),
("spider_mite_damage",
 { name := "Spider Mite Damage",
   symptoms := ["stippling", "yellowing", "webbing", "bronze_appearance"],
   keywords := ["spider mites", "stippled", "bronze", "webbing", "tiny webs"],
   description := "Microscopic pests causing stippled yellowing and fine webbing on leaves",
   treatments := [
    { ttype := "organic",
      action := "Increase humidity and use miticides",
      details := ["Spray plants with water to increase humidity", "Apply neem oil or insecticidal soap", "Use predatory mites if available", "Spray undersides of leaves thoroughly"],
      products := [] }],
   prevention := ["Maintain adequate humidity around plants", "Avoid over-fertilizing with nitrogen", "Inspect plants regularly with magnifying glass", "Quarantine new plants before introducing to garden"],
   common_plants := ["houseplants", "vegetables", "fruit trees", "ornamentals"],
   recovery_time := [("mild", "2-3 weeks"), ("moderate", "3-5 weeks"), ("severe", "5-8 weeks")] }),
("scale_insects",
 { name := "Scale Insect Infestation",
   symptoms := ["yellowing", "sticky_honeydew", "bumps_on_stems", "sooty_mold"],
   keywords := ["scale", "bumps", "hard shells", "sticky", "honeydew"],
   description := "Small insects with protective shells that attach to stems and leaves",
   treatments := [
    { ttype := "systemic",
      action := "Apply systemic insecticide",
      details := ["Use horticultural oil during dormant season", "Apply systemic insecticide (imidacloprid) to soil", "Scrape off scales manually when possible", "Use alcohol on cotton swab for small infestations"],
      products := [] }],
   prevention := ["Inspect plants before purchasing", "Quarantine new plants", "Maintain plant health to improve resistance", "Regular monitoring of susceptible plants"],
   common_plants := ["citrus", "fruit trees", "ornamental trees", "houseplants"],
   recovery_time := [("mild", "1-2 months"), ("severe", "season-long treatment needed")] }),
("sunscald",
 { name := "Sunscald",
   symptoms := ["white_patches", "bleached_areas", "papery_texture"],
   keywords := ["sunscald", "bleached", "white patches", "sun damage"],
   description := "Damage from intense sunlight causing bleached or white patches on leaves/fruits",
   treatments := [
    { ttype := "protection",
      action := "Provide shade protection",
      details := ["Use shade cloth (30-50%)", "Move containers to partial shade", "Paint tree trunks with white latex paint", "Gradually acclimate plants to full sun"],
      products := [] }],
   prevention := ["Gradually introduce plants to full sun", "Provide afternoon shade in hot climates", "Maintain adequate soil moisture", "Choose appropriate varieties for your climate"],
   common_plants := ["tomatoes", "peppers", "citrus", "young trees"],
   recovery_time := [("mild", "new growth normal in 2-4 weeks"), ("severe", "permanent damage to affected areas")] }),
("edema",
 { name := "Edema (Oedema)",
   symptoms := ["raised_bumps", "corky_spots", "blisters"],
   keywords := ["edema", "blisters", "raised spots", "corky", "water-soaked"],
   description := "Physiological disorder from overwatering causing raised, blister-like spots",
   treatments := [
    { ttype := "cultural",
      action := "Improve growing conditions",
      details := ["Reduce watering frequency", "Improve air circulation", "Increase light levels if possible", "Ensure proper drainage"],
      products := [] }],
   prevention := ["Avoid overwatering", "Provide adequate light", "Ensure good air circulation", "Use well-draining soil"],
   common_plants := ["geraniums", "ivy", "cabbage", "cauliflower"],
   recovery_time := [("mild", "new growth normal in 1-2 weeks")] })]

def generalAdvice : List (String × List String) := [
("emergency",
  ["üö® Remove severely affected plant parts immediately", "üßπ Clean up all fallen debris to prevent disease spread", "üîç Isolate affected plants if possible", "üì± Consider consulting a local plant expert or extension service", "‚è∞ Take action within 24 hours to prevent further spread"]),
("high_severity",
  ["‚ö†Ô∏è This condition requires prompt attention", "üìã Monitor plant closely for changes daily", "üíß Adjust watering practices as recommended", "üå¨Ô∏è Improve air circulation around plant", "‚úÇÔ∏è Remove affected leaves and dispose properly", "üì∏ Take photos to track progress"]),
("moderate",
  ["üìã Monitor plant weekly for changes", "üíß Maintain consistent watering schedule", "üå¨Ô∏è Ensure adequate air circulation", "‚úÇÔ∏è Remove affected plant material promptly", "üå± Support plant health with proper nutrition", "üßπ Keep area clean and free of debris"]),
("mild",
  ["üëÄ Keep an eye on the plant\x27s progress", "üíß Maintain good watering practices", "üå± Ensure plant has proper nutrition", "üßπ Practice good garden hygiene", "üìÖ Follow preventive care schedule"]),
("preventive",
  ["üîç Inspect plants weekly for early problem detection", "üíß Water consistently and appropriately for each plant type", "üå± Maintain proper nutrition with regular fertilizing", "üßπ Keep garden area clean and tidy", "‚úÇÔ∏è Prune properly to maintain plant health", "üå¨Ô∏è Ensure good air circulation around plants", "üìö Learn about your specific plants\x27 needs", "ü¶† Practice disease prevention techniques"])]

def seasonalAdvice : List (String × List String) := [
("spring",
  ["üå± Start regular monitoring as plants become active", "üíä Apply preventive treatments before problems start", "üßπ Clean up winter debris that can harbor diseases", "‚úÇÔ∏è Prune damaged or dead growth from winter"]),
("summer",
  ["üíß Monitor watering needs closely in hot weather", "üå°Ô∏è Watch for heat stress symptoms", "ü¶† Be vigilant for disease in humid conditions", "üêõ Check for increased pest activity"]),
("fall",
  ["üßπ Clean up fallen leaves to prevent disease carryover", "üíß Adjust watering as temperatures cool", "üå± Prepare plants for winter", "‚úÇÔ∏è Do final pruning before dormancy"]),
("winter",
  ["üè† Protect tender plants from cold", "üíß Reduce watering for dormant plants", "üìö Plan for next year\x27s prevention strategies", "üîç Monitor houseplants more closely"])]


/-! ### Knowledge-base read interface (`PlantDatabase` methods) -/

/-- Lookup of `self.conditions.get(name)`. -/
def dbLookup (db : DB) (condName : String) : Option ConditionInfo :=
  (db.find? (fun p => p.1 == condName)).map (fun p => p.2)

/-- Method `get_general_advice(category)`; unknown keys give `[]`.  The
"seasonal" key of the Python `general_advice` dict holds a nested dict and
is only ever read through `get_seasonal_advice`, so it lives in the
separate `seasonalAdvice` table. -/
def getGeneralAdvice (category : String) : List String :=
  ((generalAdvice.find? (fun p => p.1 == category)).map (fun p => p.2)).getD []

/-- Method `get_seasonal_advice(season)`; unknown keys give `[]`. -/
def getSeasonalAdvice (season : String) : List String :=
  ((seasonalAdvice.find? (fun p => p.1 == season)).map (fun p => p.2)).getD []

/-- Score one condition against a symptom-name list in `search_by_symptoms`:
+2 per name in the record symptom set, else +1 if some record keyword is a
substring of the name. -/
def symptomMatchScore (info : ConditionInfo) (symptoms : List String) : ℚ :=
  symptoms.foldl
    (fun sc s =>
      if info.symptoms.contains s then sc + 2
      else if info.keywords.any (fun k => strContains s k) then sc + 1
      else sc)
    0

/-- Method `search_by_symptoms(symptoms)`: positive-scoring conditions in
table order, stably sorted by descending score. -/
def searchBySymptoms (db : DB) (symptoms : List String) :
    List (String × ConditionInfo × ℚ) :=
  sortDescBy (fun m => m.2.2)
    (db.filterMap (fun p =>
      let sc := symptomMatchScore p.2 symptoms
      if sc > 0 then some (p.1, p.2, sc) else none))

/-- Method `search_by_plant_type(plant_type)`. -/
def searchByPlantType (db : DB) (plantType : String) : List (String × ConditionInfo) :=
  db.filter (fun p => p.2.common_plants.contains (pyLower plantType))

/-! ### Analyzer static tables (`PlantHealthAnalyzer.__init__`) -/

/-- Table `self.severity_keywords`, in dict order. -/
def severityKeywords : List (String × List String) := [
  ("critical", ["dying", "dead", "severe", "extensive", "widespread", "covering most", "emergency"]),
  ("high", ["spreading rapidly", "many leaves", "progressing", "getting worse", "significant", "urgent"]),
  ("moderate", ["several leaves", "noticeable", "some spread", "moderate", "multiple"]),
  ("mild", ["few leaves", "early stage", "beginning", "slight", "minor", "starting"])]

/-- Table `self.exclusion_rules`. -/
def exclusionRules : List (String × List String) := [
  ("fungal_leaf_spot", ["bacterial_spot", "viral_mosaic"]),
  ("bacterial_spot", ["fungal_leaf_spot", "viral_mosaic"]),
  ("powdery_mildew", ["bacterial_wilt", "root_rot"]),
  ("viral_mosaic", ["bacterial_spot", "fungal_leaf_spot"]),
  ("insect_damage", [])]

/-- Table `self.condition_categories`. -/
def conditionCategories : List (String × List String) := [
  ("fungal", ["fungal_leaf_spot", "powdery_mildew", "rust_disease", "black_spot", "root_rot"]),
  ("bacterial", ["bacterial_spot", "bacterial_wilt", "fire_blight"]),
  ("viral", ["viral_mosaic", "leaf_curl_virus", "stunting_virus"]),
  ("insect", ["insect_damage", "aphid_damage", "spider_mites"]),
  ("environmental", ["nutrient_deficiency", "water_stress", "light_stress", "heat_stress"]),
  ("nutritional", ["nitrogen_deficiency", "potassium_deficiency", "iron_deficiency", "magnesium_deficiency"])]

/-- Method `_get_condition_category`. -/
def getConditionCategory (condName : String) : String :=
  ((conditionCategories.find? (fun p => p.2.contains condName)).map (fun p => p.1)).getD "other"

/-- The `negative_indicators` list of `_is_negative_context`. -/
def negativeIndicators : List String :=
  ["no", "without", "absence of", "not", "free from", "clear of"]

/-- The guard of the exclusion-rule branch in `_apply_diagnostic_hierarchy`
(`primary_name in self.exclusion_rules` and
`condition_name in self.exclusion_rules[primary_name]`). -/
def exclusionApplies (primaryName condName : String) : Bool :=
  match exclusionRules.find? (fun p => p.1 == primaryName) with
  | some p => p.2.contains condName
  | none => false

/-! ### Symptom extractor -/

/-- One regex match of the symptom-pattern table: the pattern key and the
match span (code-point indices into the lowercased analysis text). -/
structure RawMatch where
  name : String
  start : Nat
  stop : Nat
deriving Repr, DecidableEq

/-- The outcome of the (unmodelled) regular-expression scans on one text:
whether some `healthy_indicators` pattern matched, the results of
`_has_definitive_problems` and `_has_implicit_problems`, and the match list
of `self.symptom_patterns` in pattern-table order. -/
structure ExtractOracle where
  healthy : Bool
  definitive : Bool
  implicit : Bool
  regexMatches : List RawMatch
deriving Repr, DecidableEq

/-- Method `_is_negative_context(surrounding_text, match_text)`. -/
def isNegativeContext (surroundingText matchText : String) : Bool :=
  match strFind surroundingText matchText with
  | none => false
  | some matchPos =>
    let wordsBefore := pyWords (pySlice surroundingText 0 matchPos)
    let recentWords := if wordsBefore.length ≥ 3 then lastN 3 wordsBefore else wordsBefore
    negativeIndicators.any (fun w => recentWords.contains w)

/-- Method `_calculate_symptom_confidence_with_db`.  The `full_analysis`
parameter is unused in the source as well. -/
def calculateSymptomConfidenceWithDb (db : DB) (textMatch symptomName : String)
    (_fullAnalysis : String) : ℚ :=
  let base : ℚ := if db.any (fun p => pyStartsWith symptomName p.1) then 0.8 else 0.7
  let base := if textMatch.length > 10 then base + 0.1 else base
  let base := if textMatch.length < 5 then base - 0.2 else base
  min (max base 0.1) 1.0

/-- The symptom returned by the explicit-healthy short circuit. -/
def healthySymptom : Symptom :=
  { name := "healthy_plant", text_match := "plant appears healthy",
    confidence := 0.9, source := "direct_observation" }

/-- Order-preserving de-duplication of `_deduplicate_symptoms`: a Python
dict keyed by name keeps each name at its first position and keeps the
entry of strictly highest confidence (first such on ties). -/
def updateFirstSymptom : List Symptom → Symptom → List Symptom
  | [], s => [s]
  | a :: t, s =>
    if a.name == s.name then
      (if s.confidence > a.confidence then s :: t else a :: t)
    else a :: updateFirstSymptom t s

/-- Method `_deduplicate_symptoms`. -/
def dedupSymptoms (l : List Symptom) : List Symptom :=
  l.foldl updateFirstSymptom []

/-- The pattern-match pass of `_extract_symptoms_from_db`: every oracle
match whose surrounding window is not a negative context becomes a
symptom, scored by `_calculate_symptom_confidence_with_db`. -/
def extractCollected (db : DB) (o : ExtractOracle) (analysisLower : String) : List Symptom :=
  (o.regexMatches.filter (fun m =>
    let matchText := pySlice analysisLower m.start m.stop
    let surroundingText := pySlice analysisLower (m.start - 30) (m.stop + 30)
    !(isNegativeContext surroundingText matchText))).map
  (fun m =>
    let matchText := pySlice analysisLower m.start m.stop
    { name := m.name, text_match := matchText,
      confidence := calculateSymptomConfidenceWithDb db matchText m.name analysisLower,
      source := "database_pattern" })

/-- The de-duplicated pattern symptoms of `_extract_symptoms_from_db`. -/
def extractUnique (db : DB) (o : ExtractOracle) (analysis : String) : List Symptom :=
  dedupSymptoms (extractCollected db o (pyLower analysis))

/-- The default-response step of `_extract_symptoms_from_db`: implicit
stress or default healthy when nothing was detected on non-trivial text. -/
def extractWithDefaults (db : DB) (o : ExtractOracle) (analysis : String) : List Symptom :=
  if (extractUnique db o analysis).isEmpty && (pyStrip analysis).length > 10 then
    if o.implicit then
      [{ name := "general_stress", text_match := "unspecified plant stress detected",
         confidence := 0.5, source := "implicit_detection" }]
    else
      [{ name := "healthy_plant", text_match := "no specific problems identified",
         confidence := 0.6, source := "default_assessment" }]
  else extractUnique db o analysis

/-- Method `_extract_symptoms_from_db(analysis)`, with the regex scans
supplied by the oracle `o` (see `ExtractOracle`). -/
def extractSymptomsFromDb (db : DB) (o : ExtractOracle) (analysis : String) : List Symptom :=
  if analysis == "" || (pyStrip analysis).length < 5 then []
  else if o.healthy && !o.definitive then [healthySymptom]
  else sortDescBy (fun s => s.confidence) (extractWithDefaults db o analysis)

/-! ### Severity assessment -/

/-- Inner check of the treatment-based pass of `_assess_severity_with_db`:
an "emergency" treatment makes the severity "critical", a "removal" or
"antibiotic" one makes it "high"; otherwise the scan continues. -/
def treatmentSeverityCheck (info : ConditionInfo) : Option String :=
  if info.treatments.any (fun t => t.ttype == "emergency") then some "critical"
  else if info.treatments.any (fun t => t.ttype == "removal" || t.ttype == "antibiotic") then
    some "high"
  else none

/-- Method `_assess_severity_with_db(analysis, symptoms)`. -/
def assessSeverityWithDb (db : DB) (analysis : String) (symptoms : List Symptom) : String :=
  if analysis == "" then "none"
  else
    let analysisLower := pyLower analysis
    if symptoms.any (fun s => s.name == "healthy_plant") then "none"
    else
      match severityKeywords.findSome?
          (fun p => if p.2.any (fun k => strContains analysisLower k) then some p.1 else none) with
      | some sev => sev
      | none =>
        match symptoms.findSome? (fun s =>
            db.findSome? (fun p =>
              if pyStartsWith s.name p.1 then treatmentSeverityCheck p.2 else none)) with
        | some sev => sev
        | none =>
          if symptoms.length ≥ 3 then "moderate"
          else if symptoms.length ≥ 1 then "mild"
          else "none"

/-- Method `_adjust_severity_for_confidence`. -/
def adjustSeverityForConfidence (severity : String) (primaryConfidence : ℚ) : String :=
  if primaryConfidence < 0.4 then
    if severity == "critical" then "high"
    else if severity == "high" then "moderate"
    else if severity == "moderate" then "mild"
    else severity
  else if primaryConfidence < 0.6 then
    if severity == "critical" then "high"
    else if severity == "high" then "moderate"
    else severity
  else severity


/-! ### Condition matcher -/

/-- Method `_get_matched_symptoms(condition_info, symptoms)`. -/
def getMatchedSymptoms (info : ConditionInfo) (symptoms : List Symptom) : List String :=
  (symptoms.filter (fun s =>
    info.symptoms.contains s.name ||
    info.keywords.any (fun k => strContains s.text_match k))).map (fun s => s.name)

/-- Method `_calculate_enhanced_condition_score`.  The Python code walks the
keyword collection as a `set`; only counts and sums are taken from that
walk, so list order is immaterial and the list is walked directly. -/
def calculateEnhancedConditionScore (info : ConditionInfo) (symptoms : List Symptom)
    (plantContext analysisText : String) (baseScore : ℚ) : ℚ :=
  let step :=
    symptoms.foldl
      (fun (acc : ℚ × Nat × Nat) s =>
        let acc :=
          if info.symptoms.contains s.name then
            (acc.1 + s.confidence * 4, acc.2.1 + 1, acc.2.2)
          else acc
        info.keywords.foldl
          (fun (a : ℚ × Nat × Nat) k =>
            if strContains s.text_match k then (a.1 + s.confidence * 1.5, a.2.1, a.2.2 + 1)
            else a)
          acc)
      (baseScore, 0, 0)
  let score := step.1
  let specificMatches := step.2.1
  let generalMatches := step.2.2
  let score :=
    if specificMatches > 0 then score + (specificMatches : ℚ) * 2
    else if generalMatches > 0 then score * 0.7
    else score
  let score :=
    if plantContext != "" then
      info.common_plants.foldl
        (fun sc plant => if strContains (pyLower plantContext) (pyLower plant) then sc + 1 else sc)
        score
    else score
  let analysisLower := pyLower analysisText
  let keywordMatches :=
    (info.keywords.filter (fun k => strContains analysisLower (pyLower k))).length
  let score :=
    if keywordMatches > 0 then score + min ((keywordMatches : ℚ) * 0.5) 2.0 else score
  max score 0

/-- The single scored condition returned for a healthy plant by
`_match_conditions_realistically`. -/
def healthyCondition : Cond :=
  { name := "healthy_plant", score := 10.0, matched_symptoms := ["healthy_plant"],
    info := { description := "Plant appears healthy with no visible signs of disease or stress",
              treatments := [], prevention := getGeneralAdvice "preventive" },
    confidence := 0.9, source := "database_healthy", category := "healthy" }

/-- The string appended to an insect-damage description by
`_apply_diagnostic_hierarchy`. -/
def secondarySuffix : String := " (possibly secondary to primary condition)"

/-- In-place mutation `condition["info"]["description"] += ...` as seen by
the shared conditions table (the candidate info dict is the same object as
the database record). -/
def dbAppendDescription (db : DB) (condName : String) : DB :=
  db.map (fun p =>
    if p.1 == condName then
      (p.1, { p.2 with description := p.2.description ++ secondarySuffix })
    else p)

/-- The loop over the non-primary candidates in `_apply_diagnostic_hierarchy`,
threading the shared conditions table (mutated by the insect-damage
annotation) and the accumulated `final_conditions`. -/
def applyDiagnosticHierarchyLoop (primary : Cond) :
    DB → List Cond → List Cond → List Cond × DB
  | db, finalConds, [] => (finalConds, db)
  | db, finalConds, c :: rest =>
    let adjusted := c.confidence
    let adjusted := if exclusionApplies primary.name c.name then adjusted * 0.3 else adjusted
    let adjusted :=
      if primary.category == c.category &&
         (["fungal", "bacterial", "viral"].contains primary.category) then
        adjusted * 0.4
      else adjusted
    let adjusted :=
      if ["environmental", "nutritional"].contains c.category then adjusted * 0.7 else adjusted
    let annotate :=
      c.category == "insect" && (["fungal", "bacterial"].contains primary.category)
    let adjusted := if annotate then adjusted * 0.6 else adjusted
    let c :=
      if annotate then
        { c with info := { c.info with description := c.info.description ++ secondarySuffix } }
      else c
    let db := if annotate then dbAppendDescription db c.name else db
    let finalConds :=
      if adjusted > 0.25 then
        finalConds ++
          [{ c with confidence := adjusted, score := c.score * adjusted,
                    role := some "secondary" }]
      else finalConds
    if finalConds.length ≥ 3 then (finalConds, db)
    else applyDiagnosticHierarchyLoop primary db finalConds rest

/-- Method `_apply_diagnostic_hierarchy` (its `symptoms` and `analysis_text`
parameters are unused in the source and dropped here). -/
def applyDiagnosticHierarchy (db : DB) (conditionScores : List Cond) : List Cond × DB :=
  match sortDescBy (fun c => c.score) conditionScores with
  | [] => ([], db)
  | primary :: rest => applyDiagnosticHierarchyLoop primary db [primary] rest

/-- Method `_get_plant_specific_conditions`. -/
def getPlantSpecificConditions (db : DB) (plantContext : String)
    (symptoms : List Symptom) : List Cond :=
  (pyWords (pyLower plantContext)).foldl
    (fun acc plantWord =>
      acc ++
        (searchByPlantType db plantWord).filterMap (fun p =>
          let score := calculateEnhancedConditionScore p.2 symptoms plantContext "" 1.0
          if score > 0 then
            some { name := p.1, score := score + 1,
                   matched_symptoms := getMatchedSymptoms p.2 symptoms, info := p.2,
                   confidence := min (score / 8.0) 1.0,
                   source := "plant_specific_" ++ plantWord,
                   category := getConditionCategory p.1 }
          else none))
    []

/-- Method `_create_generic_conditions` (its `analysis_text` parameter is
unused in the source and dropped here). -/
def createGenericConditions (symptoms : List Symptom) : List Cond :=
  let symptomNames := symptoms.map (fun s => s.name)
  let triple :=
    if symptomNames.any (fun n => strContains n "infection") then
      ("infection", "Possible plant infection requiring treatment", "pathogenic")
    else if symptomNames.any (fun n => strContains n "deficiency") then
      ("nutrient_deficiency", "Possible nutrient deficiency affecting plant health", "nutritional")
    else if symptomNames.any (fun n => n == "browning" || n == "burning" || n == "wilting") then
      ("environmental_stress", "Environmental stress affecting plant condition", "environmental")
    else
      ("general_stress", "General plant stress condition requiring attention", "other")
  [{ name := triple.1, score := 5.0, matched_symptoms := symptomNames,
     info := { description := triple.2.1,
               treatments := [{ ttype := "general", action := "Monitor and adjust care",
                                details := (getGeneralAdvice "moderate").take 3 }],
               prevention := (getGeneralAdvice "preventive").take 5 },
     confidence := 0.4, source := "generic_fallback", category := triple.2.2 }]

/-- The candidate list built from the database matches in
`_match_conditions_realistically` (entries with positive enhanced score,
in match order). -/
def mcmConditionScores (db : DB) (symptoms : List Symptom)
    (plantContext analysisText : String) : List Cond :=
  (searchBySymptoms db (symptoms.map (fun s => s.name))).filterMap (fun m =>
    let enhanced := calculateEnhancedConditionScore m.2.1 symptoms plantContext analysisText m.2.2
    if enhanced > 0 then
      some { name := m.1, score := enhanced,
             matched_symptoms := getMatchedSymptoms m.2.1 symptoms, info := m.2.1,
             confidence := min (enhanced / 10.0) 1.0,
             source := "database_match", category := getConditionCategory m.1 }
    else none)

/-- The `final_conditions` list of `_match_conditions_realistically` just
before the final sort-and-truncate (hierarchy output, then plant-specific
conditions, then the generic fallback if still empty). -/
def mcmFinalConds (db : DB) (symptoms : List Symptom)
    (plantContext analysisText : String) : List Cond :=
  let hr := applyDiagnosticHierarchy db (mcmConditionScores db symptoms plantContext analysisText)
  let finalConds := hr.1
  let finalConds :=
    if plantContext != "" then finalConds ++ getPlantSpecificConditions hr.2 plantContext symptoms
    else finalConds
  if finalConds.isEmpty then createGenericConditions symptoms else finalConds

/-- The conditions table after `_match_conditions_realistically` (only the
hierarchy step mutates it). -/
def mcmDb (db : DB) (symptoms : List Symptom)
    (plantContext analysisText : String) : DB :=
  (applyDiagnosticHierarchy db (mcmConditionScores db symptoms plantContext analysisText)).2

/-- Method `_match_conditions_realistically(symptoms, plant_context,
analysis_text)`, returning the ranked conditions and the post-call
conditions table. -/
def matchConditionsRealistically (db : DB) (symptoms : List Symptom)
    (plantContext analysisText : String) : List Cond × DB :=
  if symptoms.any (fun s => s.name == "healthy_plant") then ([healthyCondition], db)
  else
    ((sortDescBy (fun c => c.score) (mcmFinalConds db symptoms plantContext analysisText)).take 3,
     mcmDb db symptoms plantContext analysisText)


/-! ### Treatment urgency and treatment generation -/

/-- The `urgency_levels` ladder of `_determine_treatment_urgency`. -/
def urgencyLevels : List String := ["low", "medium", "high", "emergency"]

/-- Method `_determine_treatment_urgency(treatment, severity, confidence)`.
The final index is always within `urgencyLevels` (it is clamped to
`[0, index of base urgency]`), so the `getD` default is never used. -/
def determineTreatmentUrgency (treatment : TreatmentT) (severity : String)
    (confidence : ℚ) : String :=
  let treatmentType := treatment.ttype
  let confidenceModifier : ℚ :=
    if confidence < 0.4 then 0.5
    else if confidence < 0.6 then 0.75
    else 1.0
  let baseUrgency :=
    if treatmentType == "emergency" || treatmentType == "removal" || severity == "critical" then
      "emergency"
    else if treatmentType == "fungicide" || treatmentType == "bactericide" ||
            treatmentType == "antibiotic" || severity == "high" then
      "high"
    else if treatmentType == "cultural" || treatmentType == "organic" ||
            treatmentType == "fertilizer" || severity == "moderate" then
      "medium"
    else "low"
  let currentLevel : Int := urgencyLevels.indexOf baseUrgency
  if confidenceModifier < 1.0 then
    let reduction := pyInt ((1.0 - confidenceModifier) * 2)
    let newLevel := max 0 (currentLevel - reduction)
    urgencyLevels.getD newLevel.toNat "low"
  else baseUrgency

/-- Method `_calculate_overall_confidence` (its internal try/except guards a
total body, so the except branch is unreachable). -/
def calculateOverallConfidence (symptoms : List Symptom) (conditions : List Cond) : String :=
  if symptoms.isEmpty || conditions.isEmpty then "low"
  else
    match conditions with
    | [] => "low"
    | primary :: _ =>
      if primary.confidence > 0.7 then "high"
      else if primary.confidence > 0.5 then "medium"
      else if primary.confidence > 0.3 then "moderate"
      else "low"

/-- The confidence-based rewriting of a treatment action text in
`_generate_treatments_from_db_with_confidence`. -/
def rewriteActionForConfidence (action : String) (primaryConfidence : ℚ) : String :=
  if primaryConfidence < 0.4 then
    if action != "" then
      (if pyStartsWith (pyLower action) "consider" then action
       else "Consider " ++ pyLower action)
    else "Monitor and consider treatment options"
  else if primaryConfidence < 0.6 then
    if action != "" then
      (if pyStartsWith (pyLower action) "likely" then action
       else "Likely need to " ++ pyLower action)
    else "Probably needs treatment"
  else action

/-- The standing monitoring treatment appended for low-confidence diagnoses. -/
def monitoringTreatment : OutTreatment :=
  { ttype := "monitoring",
    action := "Monitor closely and gather more evidence before treatment",
    details := ["Take daily photos to track symptom progression",
                "Note environmental conditions (watering, light, temperature)",
                "Document any changes over 3-5 days",
                "Consider consulting a local plant expert for confirmation"],
    urgency := "medium", source := "low_confidence_advice" }

/-- The generic entry used when no specific treatment was produced. -/
def generalCareTreatment : OutTreatment :=
  { ttype := "general_care", action := "Provide general plant care while monitoring",
    details := (getGeneralAdvice "moderate").take 3,
    urgency := "medium", source := "database_general" }

/-- Method `_generate_treatments_from_db_with_confidence(conditions, severity)`
(the try body is total, so the except branch is unreachable). -/
def generateTreatmentsFromDbWithConfidence (conditions : List Cond)
    (severity : String) : List OutTreatment :=
  let primaryConfidence : ℚ := match conditions with | [] => 0.3 | c :: _ => c.confidence
  let conditionsToProcess :=
    if primaryConfidence < 0.5 then conditions.take 1 else conditions.take 2
  let treatments :=
    conditionsToProcess.foldl
      (fun acc cond =>
        acc ++ cond.info.treatments.map (fun t =>
          { ttype := t.ttype,
            action := rewriteActionForConfidence t.action primaryConfidence,
            details := t.details, products := t.products,
            urgency := determineTreatmentUrgency t severity primaryConfidence,
            condition := some cond.name, source := "database" }))
      []
  let treatments :=
    if primaryConfidence < 0.5 then treatments ++ [monitoringTreatment] else treatments
  if treatments.isEmpty then [generalCareTreatment] else treatments

/-! ### Immediate actions and prevention tips -/

/-- The fixed affirming action list returned for healthy plants. -/
def healthyActions : List String :=
  ["✅ Great news! Your plant appears healthy",
   "🔍 Continue regular monitoring for any changes",
   "💧 Maintain current watering and care routine",
   "🌱 Keep up the good work with plant care!"]

/-- Method `_generate_immediate_actions_from_db(symptoms, severity, conditions)`
(the try body is total, so the except branch is unreachable). -/
def generateImmediateActionsFromDb (symptoms : List Symptom) (severity : String)
    (conditions : List Cond) : List String :=
  if severity == "none" || symptoms.any (fun s => s.name == "healthy_plant") then
    healthyActions
  else
    let primaryConfidence : ℚ := match conditions with | [] => 0.3 | c :: _ => c.confidence
    let actions :=
      if primaryConfidence < 0.4 then
        ["🔍 Monitor plant closely - diagnosis uncertain",
         "📸 Take daily photos to track any changes",
         "📝 Document symptoms and environmental conditions",
         "📱 Consider consulting a plant expert for confirmation"]
      else if primaryConfidence < 0.6 then
        ["🔍 Monitor plant closely - likely needs attention",
         "📸 Document symptoms with photos",
         "⚠️ Prepare for possible treatment based on symptom progression"]
      else
        let actions := (getGeneralAdvice severity).take 2
        let actions :=
          if severity == "critical" || severity == "high" then
            actions ++ (getGeneralAdvice "emergency").take 1
          else actions
        match conditions with
        | [] => actions
        | primary :: _ =>
          (primary.info.treatments.take 1).foldl
            (fun acc t =>
              if t.ttype == "emergency" || t.ttype == "removal" || t.ttype == "pruning" then
                let actionText := "🚨 " ++ t.action
                if acc.contains actionText then acc else acc ++ [actionText]
              else acc)
            actions
    let actions :=
      if actions.contains "📋 Take photos to monitor progress" then actions
      else actions ++ ["📋 Take photos to monitor progress over next few days"]
    (dedupStrings actions).take 4

/-- Method `_generate_prevention_tips_from_db(conditions)`.  The Python code
accumulates the tips in a `set`, whose iteration order is
interpreter-dependent; it is modelled here as insertion-ordered
de-duplication.  The season, taken from `datetime` in `_get_current_season`,
is a parameter. -/
def generatePreventionTipsFromDb (conditions : List Cond) (season : String) : List String :=
  let tips := match conditions with
    | [] => []
    | primary :: _ => primary.info.prevention.take 3
  let tips := tips ++ (getGeneralAdvice "preventive").take 3
  let tips := tips ++ (getSeasonalAdvice season).take 2
  (dedupStrings tips).take 6

/-! ### Recommendation text -/

/-- The `severity_desc` mapping of `_format_realistic_recommendations`
(with its `.get` default). -/
def severityDesc (severity : String) : String :=
  if severity == "critical" then "Immediate attention required"
  else if severity == "high" then "Prompt treatment needed"
  else if severity == "moderate" then "Monitor and treat"
  else if severity == "mild" then "Watch closely"
  else if severity == "none" then "No immediate concerns"
  else "Assessment needed"

/-- The `urgency_icon` mapping (with its `.get` default). -/
def urgencyIcon (urgency : String) : String :=
  if urgency == "emergency" then "🚨"
  else if urgency == "high" then "⚠️"
  else if urgency == "medium" then "⚖️"
  else if urgency == "low" then "📋"
  else "📋"

/-- The display form `name.replace('_', ' ').title()`. -/
def displayName (n : String) : String :=
  pyTitle (replaceUnderscores n)

/-- Method `_format_realistic_recommendations(conditions, treatments,
actions, severity)` (the try body is total, so the except branch is
unreachable). -/
def formatRealisticRecommendations (conditions : List Cond)
    (treatments : List OutTreatment) (actions : List String)
    (severity : String) : String :=
  let recs : List String := []
  let recs :=
    match conditions with
    | [] => recs
    | primary :: rest =>
      let recs := recs ++
        ["**Primary Diagnosis**: " ++ displayName primary.name,
         "**Confidence**: " ++ pyFormatPercent primary.confidence]
      let recs :=
        if rest.isEmpty then recs
        else recs ++
          ["**Secondary Concerns**: " ++ String.intercalate ", "
            (rest.map (fun c => displayName c.name ++ " (" ++ pyFormatPercent c.confidence ++ ")"))]
      match primary.info.recovery_time.find? (fun p => p.1 == severity) with
      | some p => recs ++ ["**Expected Recovery**: " ++ p.2]
      | none => recs
  let recs := recs ++ ["**Severity**: " ++ pyTitle severity ++ " - " ++ severityDesc severity]
  let recs :=
    if treatments.isEmpty then recs
    else (recs ++ ["**Recommended Actions**:"]) ++
      (treatments.take 2).map (fun t => "• " ++ urgencyIcon t.urgency ++ " " ++ t.action)
  let recs :=
    if actions.isEmpty then recs
    else (recs ++ ["**Next Steps**:"]) ++ (actions.take 3).map (fun a => "• " ++ a)
  String.intercalate "\n" recs

/-! ### Fallback response and entry point -/

/-- The single placeholder condition of the fallback response, advising the
user to retry with a clearer image or consult an expert. -/
def analysisIncompleteCondition : Cond :=
  { name := "analysis_incomplete", score := 3.0, matched_symptoms := [],
    info := { description :=
                "Unable to complete analysis. Please try with a clearer image or consult an expert.",
              treatments := [{ ttype := "general", action := "Monitor plant closely",
                               details := (getGeneralAdvice "moderate").take 3 }],
              prevention := (getGeneralAdvice "preventive").take 5 },
    confidence := 0.3, source := "database_fallback", category := "unknown" }

/-- Method `_create_fallback_response(raw_analysis, analysis_type)`.  Its
`error_msg` parameter is never read in the source, so the fallback shape is
the same for degenerate input and for a caught exception.  A Python `None`
for `raw_analysis` behaves exactly like `""` (both are falsy) and is
modelled by `""`.  The try body is total, so the except branch is
unreachable. -/
def createFallbackResponse (rawAnalysis analysisType : String) : DiagnosisResult :=
  { raw_analysis := if rawAnalysis == "" then "No analysis available" else rawAnalysis,
    detected_symptoms := [],
    severity_level := "unknown",
    possible_conditions := [analysisIncompleteCondition],
    treatments := [{ ttype := "general_care", action := "Provide basic plant care",
                     details := (getGeneralAdvice "moderate").take 3,
                     urgency := "medium", source := "database_general" }],
    immediate_actions := ["🔍 Monitor plant daily for any changes",
                          "💧 Maintain consistent watering schedule",
                          "📱 Consider consulting a plant expert for detailed diagnosis"],
    prevention_tips := (getGeneralAdvice "preventive").take 5,
    confidence_score := "low",
    analysis_type := analysisType,
    recommendations := "**Analysis Type**: " ++ displayName analysisType ++
      "\n**Status**: Analysis incomplete\n**Recommendation**: Follow database general care guidelines and monitor closely" }

/-- Method `_clean_analysis_text`: whitespace normalisation
`' '.join(analysis.split())` plus `strip()`.  The two scaffold-stripping
regex substitutions (removing a leading `...Answer:` or `...assistant:`
prefix) are the identity on texts without those markers and are not
modelled; no claim depends on them and every concrete input below is
marker-free. -/
def cleanAnalysisText (analysis : String) : String :=
  if analysis == "" then ""
  else pyStrip (String.intercalate " " (pyWords analysis))

/-- The body of `process_analysis(raw_analysis, analysis_type, plant_context)`
past the degenerate-input guard, returning the Diagnosis Result and the
post-call conditions table. -/
def processAnalysisMain (db : DB) (o : ExtractOracle) (season : String)
    (rawAnalysis analysisType plantContext : String) : DiagnosisResult × DB :=
  let cleanedAnalysis := cleanAnalysisText rawAnalysis
  let detectedSymptoms := extractSymptomsFromDb db o cleanedAnalysis
  let initialSeverity := assessSeverityWithDb db cleanedAnalysis detectedSymptoms
  let mc := matchConditionsRealistically db detectedSymptoms plantContext cleanedAnalysis
  let possibleConditions := mc.1
  let severityLevel :=
    match possibleConditions with
    | [] => initialSeverity
    | primary :: _ => adjustSeverityForConfidence initialSeverity primary.confidence
  let treatments := generateTreatmentsFromDbWithConfidence possibleConditions severityLevel
  let immediateActions :=
    generateImmediateActionsFromDb detectedSymptoms severityLevel possibleConditions
  let preventionTips := generatePreventionTipsFromDb possibleConditions season
  let confidence := calculateOverallConfidence detectedSymptoms possibleConditions
  ({ raw_analysis := rawAnalysis,
     detected_symptoms := detectedSymptoms,
     severity_level := severityLevel,
     possible_conditions := possibleConditions,
     treatments := treatments,
     immediate_actions := immediateActions,
     prevention_tips := preventionTips,
     confidence_score := confidence,
     analysis_type := analysisType,
     recommendations :=
       formatRealisticRecommendations possibleConditions treatments immediateActions
         severityLevel },
   mc.2)

/-- Entry point `process_analysis`: empty or too-short input (Python
`not raw_analysis or len(raw_analysis.strip()) < 10`; an empty string has
stripped length 0, so the single length test covers both) yields the
fallback response; otherwise the pipeline runs.  The season parameter
stands for `_get_current_season()` (the only time-dependent input). -/
def processAnalysis (db : DB) (o : ExtractOracle) (season : String)
    (rawAnalysis analysisType plantContext : String) : DiagnosisResult × DB :=
  if (pyStrip rawAnalysis).length < 10 then
    (createFallbackResponse rawAnalysis analysisType, db)
  else processAnalysisMain db o season rawAnalysis analysisType plantContext

/-- The try/except structure of `process_analysis`: the body either
completes normally or raises an unexpected exception somewhere in the
pipeline (abstracted by the `exc` argument, injected past the guard); the
handler at the entry point converts any exception into the very same
fallback response used for degenerate input (the exception text is only
logged and passed to the unused `error_msg` parameter). -/
def processAnalysisExcept (exc : Option String) (db : DB) (o : ExtractOracle)
    (season rawAnalysis analysisType plantContext : String) :
    Except String DiagnosisResult :=
  let body : Except String DiagnosisResult :=
    if (pyStrip rawAnalysis).length < 10 then
      Except.ok (createFallbackResponse rawAnalysis analysisType)
    else
      match exc with
      | some e => Except.error e
      | none =>
        Except.ok (processAnalysisMain db o season rawAnalysis analysisType plantContext).1
  match body with
  | Except.ok r => Except.ok r
  | Except.error _ => Except.ok (createFallbackResponse rawAnalysis analysisType)


/-! ### Helper lemmas about the sorting and de-duplication combinators -/

theorem mem_insertDescBy (key : α → ℚ) (x z : α) :
    ∀ l : List α, z ∈ insertDescBy key x l → z = x ∨ z ∈ l := by
  intro l h
  induction l with
  | nil =>
    simp only [insertDescBy, List.mem_singleton] at h
    exact Or.inl h
  | cons y ys ih =>
    simp only [insertDescBy] at h
    split at h
    · rcases List.mem_cons.mp h with h | h
      · exact Or.inl h
      · exact Or.inr h
    · rcases List.mem_cons.mp h with h | h
      · exact Or.inr (h ▸ List.mem_cons_self y ys)
      · rcases ih h with h | h
        · exact Or.inl h
        · exact Or.inr (List.mem_cons_of_mem y h)

theorem mem_sortDescBy (key : α → ℚ) (z : α) :
    ∀ l : List α, z ∈ sortDescBy key l → z ∈ l := by
  intro l h
  induction l with
  | nil => exact h
  | cons x xs ih =>
    simp only [sortDescBy] at h
    rcases mem_insertDescBy key x z _ h with h | h
    · exact h ▸ List.mem_cons_self x xs
    · exact List.mem_cons_of_mem x (ih h)

theorem pairwise_insertDescBy (key : α → ℚ) (x : α) :
    ∀ l : List α, l.Pairwise (fun a b => key b ≤ key a) →
      (insertDescBy key x l).Pairwise (fun a b => key b ≤ key a) := by
  intro l hl
  induction l with
  | nil => simp [insertDescBy]
  | cons y ys ih =>
    rcases List.pairwise_cons.mp hl with ⟨hy, hys⟩
    simp only [insertDescBy]
    split
    · rename_i hyx
      refine List.pairwise_cons.mpr ⟨?_, hl⟩
      intro z hz
      rcases List.mem_cons.mp hz with rfl | hz
      · exact hyx
      · exact le_trans (hy z hz) hyx
    · rename_i hyx
      have hxy : key x ≤ key y := le_of_not_le hyx
      refine List.pairwise_cons.mpr ⟨?_, ih hys⟩
      intro z hz
      rcases mem_insertDescBy key x z ys hz with rfl | hz
      · exact hxy
      · exact hy z hz

theorem pairwise_sortDescBy (key : α → ℚ) :
    ∀ l : List α, (sortDescBy key l).Pairwise (fun a b => key b ≤ key a) := by
  intro l
  induction l with
  | nil => simp [sortDescBy]
  | cons x xs ih => exact pairwise_insertDescBy key x _ ih

theorem mem_updateFirstSymptom (s z : Symptom) :
    ∀ acc : List Symptom, z ∈ updateFirstSymptom acc s → z ∈ acc ∨ z = s := by
  intro acc h
  induction acc with
  | nil =>
    simp only [updateFirstSymptom, List.mem_singleton] at h
    exact Or.inr h
  | cons a t ih =>
    simp only [updateFirstSymptom] at h
    split at h
    · split at h
      · rcases List.mem_cons.mp h with h | h
        · exact Or.inr h
        · exact Or.inl (List.mem_cons_of_mem a h)
      · rcases List.mem_cons.mp h with h | h
        · exact Or.inl (h ▸ List.mem_cons_self a t)
        · exact Or.inl (List.mem_cons_of_mem a h)
    · rcases List.mem_cons.mp h with h | h
      · exact Or.inl (h ▸ List.mem_cons_self a t)
      · rcases ih h with h | h
        · exact Or.inl (List.mem_cons_of_mem a h)
        · exact Or.inr h

theorem mem_foldl_updateFirstSymptom (z : Symptom) :
    ∀ (l acc : List Symptom), z ∈ l.foldl updateFirstSymptom acc → z ∈ acc ∨ z ∈ l := by
  intro l
  induction l with
  | nil =>
    intro acc h
    exact Or.inl h
  | cons s t ih =>
    intro acc h
    rcases ih (updateFirstSymptom acc s) h with h | h
    · rcases mem_updateFirstSymptom s z acc h with h | h
      · exact Or.inl h
      · exact Or.inr (h ▸ List.mem_cons_self s t)
    · exact Or.inr (List.mem_cons_of_mem s h)

theorem mem_dedupSymptoms (z : Symptom) (l : List Symptom)
    (h : z ∈ dedupSymptoms l) : z ∈ l := by
  rcases mem_foldl_updateFirstSymptom z l [] h with h | h
  · simp at h
  · exact h

/-- Every clamped symptom confidence lies in `[0.1, 1]`. -/
theorem calculateSymptomConfidenceWithDb_bounds (db : DB) (t n f : String) :
    (0.1 : ℚ) ≤ calculateSymptomConfidenceWithDb db t n f ∧
      calculateSymptomConfidenceWithDb db t n f ≤ 1 := by
  unfold calculateSymptomConfidenceWithDb
  have h1 : (0.1 : ℚ) ≤ 1.0 := by with_unfolding_all decide
  have h2 : (1.0 : ℚ) ≤ 1 := by with_unfolding_all decide
  exact ⟨le_min (le_max_right _ _) h1, le_trans (min_le_right _ _) h2⟩

/-- The ranked-conditions list of the matcher is either the single healthy
condition or the three highest-scoring entries of a descending sort. -/
theorem matchConditions_fst_shape (db : DB) (symptoms : List Symptom)
    (plantContext analysisText : String) :
    (matchConditionsRealistically db symptoms plantContext analysisText).1 = [healthyCondition] ∨
    ∃ l, (matchConditionsRealistically db symptoms plantContext analysisText).1 =
      (sortDescBy (fun c => c.score) l).take 3 := by
  unfold matchConditionsRealistically
  split
  · exact Or.inl rfl
  · exact Or.inr ⟨_, rfl⟩


/-! ### Claim theorems -/

/-- C1: for every call to `process_analysis` whose `raw_text` is empty,
`None` (modelled by `""`), or of stripped length below 10, the call
returns (it is a total function, so nothing is raised) the fallback
result, whose severity level is "unknown", whose confidence score is
"low", whose detected-symptoms list is empty, and whose
possible-conditions list is exactly the one placeholder condition
`analysisIncompleteCondition`, whose description advises retrying the
analysis with a clearer image or consulting an expert. -/
theorem process_analysis_degenerate_input_fallback (db : DB) (o : ExtractOracle)
    (season rawAnalysis analysisType plantContext : String)
    (h : (pyStrip rawAnalysis).length < 10) :
    (processAnalysis db o season rawAnalysis analysisType plantContext).1 =
      createFallbackResponse rawAnalysis analysisType ∧
    (processAnalysis db o season rawAnalysis analysisType plantContext).1.severity_level =
      "unknown" ∧
    (processAnalysis db o season rawAnalysis analysisType plantContext).1.confidence_score =
      "low" ∧
    (processAnalysis db o season rawAnalysis analysisType plantContext).1.detected_symptoms =
      [] ∧
    (processAnalysis db o season rawAnalysis analysisType plantContext).1.possible_conditions =
      [analysisIncompleteCondition] := by
  have e : (processAnalysis db o season rawAnalysis analysisType plantContext).1 =
      createFallbackResponse rawAnalysis analysisType := by
    unfold processAnalysis
    rw [if_pos h]
  refine ⟨e, ?_, ?_, ?_, ?_⟩ <;> rw [e] <;> rfl

/-- Witness for C1 at the concrete empty input of spec Scenario C. -/
theorem process_analysis_degenerate_input_fallback_witness :
    (pyStrip "").length < 10 ∧
    (processAnalysis plantConditions
        { healthy := false, definitive := false, implicit := false, regexMatches := [] }
        "summer" "" "general_diagnosis" "").1 =
      createFallbackResponse "" "general_diagnosis" :=
  ⟨by decide,
   (process_analysis_degenerate_input_fallback plantConditions
      { healthy := false, definitive := false, implicit := false, regexMatches := [] }
      "summer" "" "general_diagnosis" "" (by decide)).1⟩

/-- C2: `process_analysis` never surfaces an exception: for every input and
every possible pipeline exception (abstracted by `exc`), the guarded call
returns `Except.ok` with a structurally complete `DiagnosisResult` (the
record type carries all ten result fields), and whenever an exception
occurs the returned value is exactly the same fallback shape as the
degenerate-input case (`_create_fallback_response` ignores its `error_msg`
argument; the exception text is only logged). -/
theorem process_analysis_never_raises (exc : Option String) (db : DB)
    (o : ExtractOracle) (season rawAnalysis analysisType plantContext : String) :
    (∃ r : DiagnosisResult,
        processAnalysisExcept exc db o season rawAnalysis analysisType plantContext =
          Except.ok r) ∧
    (∀ msg, exc = some msg →
        processAnalysisExcept exc db o season rawAnalysis analysisType plantContext =
          Except.ok (createFallbackResponse rawAnalysis analysisType)) := by
  constructor
  · by_cases hg : (pyStrip rawAnalysis).length < 10
    · exact ⟨createFallbackResponse rawAnalysis analysisType,
        by simp [processAnalysisExcept, hg]⟩
    · cases exc with
      | none =>
        exact ⟨(processAnalysisMain db o season rawAnalysis analysisType plantContext).1,
          by simp [processAnalysisExcept, hg]⟩
      | some msg =>
        exact ⟨createFallbackResponse rawAnalysis analysisType,
          by simp [processAnalysisExcept, hg]⟩
  · intro msg hm
    subst hm
    unfold processAnalysisExcept
    by_cases hg : (pyStrip rawAnalysis).length < 10
    · simp [hg]
    · simp [hg]

/-- Witness for C2: a concrete pipeline exception on a long enough input is
converted into the degenerate-input fallback result. -/
theorem process_analysis_never_raises_witness :
    processAnalysisExcept (some "boom") plantConditions
        { healthy := false, definitive := false, implicit := false, regexMatches := [] }
        "summer" "The plant has a problem on its leaves." "general_diagnosis" "" =
      Except.ok (createFallbackResponse "The plant has a problem on its leaves."
        "general_diagnosis") :=
  (process_analysis_never_raises (some "boom") plantConditions
      { healthy := false, definitive := false, implicit := false, regexMatches := [] }
      "summer" "The plant has a problem on its leaves." "general_diagnosis" "").2
    "boom" rfl

/-- C5 is refuted (code bug): `_determine_treatment_urgency` computes its
confidence reduction as `int((1.0 - modifier) * 2)`, which is `int(1.0) = 1`
level for the low-confidence modifier `0.5` and `int(0.5) = 0` levels for
the mid-confidence modifier `0.75` — not the two-tier and one-tier drops the
spec describes (and that the adjacent source comment "Reduce by 1-2 levels"
intends).  Concretely, a fungicide treatment (base urgency "high"):
confidence 0.3 yields "medium" where the claim requires "low", and
confidence 0.5 yields "high" unchanged where the claim requires "medium";
confidence 0.7 correctly leaves the base urgency "high". -/
theorem treatment_urgency_dampening_shallower_than_spec :
    determineTreatmentUrgency { ttype := "fungicide", action := "Apply copper-based fungicide" }
        "moderate" 0.3 = "medium" ∧
    determineTreatmentUrgency { ttype := "fungicide", action := "Apply copper-based fungicide" }
        "moderate" 0.5 = "high" ∧
    determineTreatmentUrgency { ttype := "fungicide", action := "Apply copper-based fungicide" }
        "moderate" 0.7 = "high" ∧
    ("medium" : String) ≠ "low" ∧ ("high" : String) ≠ "medium" := by
  refine ⟨?_, ?_, ?_, ?_, ?_⟩ <;> with_unfolding_all decide

def c6Text : String := "My plant leaves are clear of spots."

/-- The symptom-pattern matches the Python regexes produce on `c6Text`
(lowercased): the word "spots" at code points 29..33 matches the three
database symptom patterns carrying symptom "spots" and the general pattern
`general_spots`, in pattern-table order. -/
def c6Oracle : ExtractOracle :=
  { healthy := false, definitive := false, implicit := false,
    regexMatches := [
      { name := "fungal_leaf_spot_spots", start := 29, stop := 34 },
      { name := "rust_disease_spots", start := 29, stop := 34 },
      { name := "bacterial_spot_spots", start := 29, stop := 34 },
      { name := "general_spots", start := 29, stop := 34 }] }

/-- C6 is refuted (code bug): `_is_negative_context` tests each
negation indicator with `neg_word in recent_words`, a membership test
against single whitespace-separated tokens, so the multi-word indicators
"free from", "clear of" (and "absence of") in its own indicator list can
never match and never negate anything.  On the text
"My plant leaves are clear of spots." the mention "spots" is immediately
preceded by the negation phrase "clear of", yet the extractor emits four
positive spot symptoms.  (The single-word indicators "no", "without",
"not" are honoured within the three-word window.) -/
theorem multiword_negations_not_filtered :
    "clear of" ∈ negativeIndicators ∧
    isNegativeContext "my plant leaves are clear of spots." "spots" = false ∧
    (extractSymptomsFromDb plantConditions c6Oracle c6Text).map (fun s => s.name) =
      ["fungal_leaf_spot_spots", "rust_disease_spots", "bacterial_spot_spots",
       "general_spots"] := by
  refine ⟨?_, ?_, ?_⟩
  · decide
  · decide
  · with_unfolding_all decide

/-- C10: `search_by_symptoms` only ever returns names that are keys of the
conditions table; the names `viral_mosaic`, `root_rot` and `bacterial_wilt`
appearing in `exclusion_rules` are not such keys (the key for mosaic
disease is `mosaic_virus`), so on key-named candidates the exclusion guard
of `_apply_diagnostic_hierarchy` (`exclusionApplies`) can only ever fire
for the pair fungal_leaf_spot / bacterial_spot, in either order. -/
theorem exclusion_rules_only_leaf_spot_pair_fires :
    (∀ (syms : List String) (x : String × ConditionInfo × ℚ),
        x ∈ searchBySymptoms plantConditions syms → x.1 ∈ plantConditions.map Prod.fst) ∧
    ("viral_mosaic" ∉ plantConditions.map Prod.fst ∧
     "root_rot" ∉ plantConditions.map Prod.fst ∧
     "bacterial_wilt" ∉ plantConditions.map Prod.fst) ∧
    (∀ p ∈ plantConditions.map Prod.fst, ∀ c ∈ plantConditions.map Prod.fst,
        exclusionApplies p c = true →
          (p = "fungal_leaf_spot" ∧ c = "bacterial_spot") ∨
          (p = "bacterial_spot" ∧ c = "fungal_leaf_spot")) := by
  refine ⟨?_, by decide, by decide⟩
  intro syms x h
  unfold searchBySymptoms at h
  have h2 := mem_sortDescBy _ _ _ h
  rw [List.mem_filterMap] at h2
  obtain ⟨p, hp, he⟩ := h2
  simp only at he
  split at he
  · cases he
    exact List.mem_map_of_mem Prod.fst hp
  · cases he

/-- Witness for C10: both bounded universals instantiated at the one pair
that can fire. -/
theorem exclusion_rules_only_leaf_spot_pair_fires_witness :
    ("fungal_leaf_spot" ∈ plantConditions.map Prod.fst ∧
     "bacterial_spot" ∈ plantConditions.map Prod.fst ∧
     exclusionApplies "fungal_leaf_spot" "bacterial_spot" = true) ∧
    (("fungal_leaf_spot" = "fungal_leaf_spot" ∧ "bacterial_spot" = "bacterial_spot") ∨
     ("fungal_leaf_spot" = "bacterial_spot" ∧ "bacterial_spot" = "fungal_leaf_spot")) :=
  ⟨⟨by decide, by decide, by decide⟩,
   exclusion_rules_only_leaf_spot_pair_fires.2.2 "fungal_leaf_spot" (by decide)
     "bacterial_spot" (by decide) (by decide)⟩


/-- C7: every result of `process_analysis` carries a possible-conditions
list of at most 3 entries, sorted in non-increasing order of numeric
score: the fallback and healthy paths return singletons, every other path
returns the first three entries of a stable descending sort. -/
theorem possible_conditions_at_most_three_sorted (db : DB) (o : ExtractOracle)
    (season rawAnalysis analysisType plantContext : String) :
    (processAnalysis db o season rawAnalysis analysisType plantContext).1.possible_conditions.length ≤ 3 ∧
    (processAnalysis db o season rawAnalysis analysisType plantContext).1.possible_conditions.Pairwise
      (fun a b => b.score ≤ a.score) := by
  by_cases hg : (pyStrip rawAnalysis).length < 10
  · have e : (processAnalysis db o season rawAnalysis analysisType plantContext).1 =
        createFallbackResponse rawAnalysis analysisType := by
      unfold processAnalysis
      rw [if_pos hg]
    rw [e]
    exact ⟨by simp [createFallbackResponse], List.pairwise_singleton _ _⟩
  · have e : (processAnalysis db o season rawAnalysis analysisType plantContext).1.possible_conditions =
        (matchConditionsRealistically db
          (extractSymptomsFromDb db o (cleanAnalysisText rawAnalysis)) plantContext
          (cleanAnalysisText rawAnalysis)).1 := by
      unfold processAnalysis
      rw [if_neg hg]
      rfl
    rw [e]
    rcases matchConditions_fst_shape db
        (extractSymptomsFromDb db o (cleanAnalysisText rawAnalysis)) plantContext
        (cleanAnalysisText rawAnalysis) with h | ⟨l, h⟩
    · rw [h]
      exact ⟨by simp, List.pairwise_singleton _ _⟩
    · rw [h]
      exact ⟨List.length_take_le 3 _,
        List.Pairwise.sublist (List.take_sublist 3 _) (pairwise_sortDescBy _ _)⟩

/-- C8: whenever a `healthy_plant` symptom occurs among the detected
symptoms of a `process_analysis` result, the possible-conditions list is
exactly the single healthy condition (score 10, confidence 0.9) — the
matcher short-circuits before any disease or stress condition can be
ranked, so a healthy finding excludes every other diagnosis. -/
theorem healthy_plant_exclusive_diagnosis (db : DB) (o : ExtractOracle)
    (season rawAnalysis analysisType plantContext : String)
    (h : "healthy_plant" ∈
      ((processAnalysis db o season rawAnalysis analysisType plantContext).1.detected_symptoms.map
        (fun s => s.name))) :
    (processAnalysis db o season rawAnalysis analysisType plantContext).1.possible_conditions =
      [healthyCondition] := by
  by_cases hg : (pyStrip rawAnalysis).length < 10
  · exfalso
    have e : (processAnalysis db o season rawAnalysis analysisType plantContext).1 =
        createFallbackResponse rawAnalysis analysisType := by
      unfold processAnalysis
      rw [if_pos hg]
    rw [e] at h
    simp [createFallbackResponse] at h
  · have hd : (processAnalysis db o season rawAnalysis analysisType plantContext).1.detected_symptoms =
        extractSymptomsFromDb db o (cleanAnalysisText rawAnalysis) := by
      unfold processAnalysis
      rw [if_neg hg]
      rfl
    rw [hd, List.mem_map] at h
    obtain ⟨s, hs, hn⟩ := h
    have hany : ((extractSymptomsFromDb db o (cleanAnalysisText rawAnalysis)).any
        (fun s => s.name == "healthy_plant")) = true := by
      rw [List.any_eq_true]
      exact ⟨s, hs, beq_iff_eq.mpr hn⟩
    have e2 : (processAnalysis db o season rawAnalysis analysisType plantContext).1.possible_conditions =
        (matchConditionsRealistically db
          (extractSymptomsFromDb db o (cleanAnalysisText rawAnalysis)) plantContext
          (cleanAnalysisText rawAnalysis)).1 := by
      unfold processAnalysis
      rw [if_neg hg]
      rfl
    rw [e2]
    unfold matchConditionsRealistically
    rw [if_pos hany]

/-- Witness for C8: a concrete healthy-text run (the oracle records that a
healthy-indicator regex matched and no definitive-problem regex did). -/
theorem healthy_plant_exclusive_diagnosis_witness :
    ("healthy_plant" ∈
      ((processAnalysis plantConditions
          { healthy := true, definitive := false, implicit := false, regexMatches := [] }
          "summer" "The plant appears healthy today." "general_diagnosis" "").1.detected_symptoms.map
            (fun s => s.name))) ∧
    (processAnalysis plantConditions
        { healthy := true, definitive := false, implicit := false, regexMatches := [] }
        "summer" "The plant appears healthy today." "general_diagnosis" "").1.possible_conditions =
      [healthyCondition] :=
  ⟨by with_unfolding_all decide,
   healthy_plant_exclusive_diagnosis plantConditions
     { healthy := true, definitive := false, implicit := false, regexMatches := [] }
     "summer" "The plant appears healthy today." "general_diagnosis" ""
     (by with_unfolding_all decide)⟩

/-- C9: every symptom produced by the extractor, on any input text and any
regex-oracle outcome, has confidence in the closed interval [0.1, 1]: the
healthy short-circuit yields 0.9, pattern matches are clamped by
`min(max(base, 0.1), 1.0)`, and the implicit-stress and default-healthy
responses yield 0.5 and 0.6. -/
theorem symptom_confidence_in_unit_interval (db : DB) (o : ExtractOracle)
    (analysis : String) (s : Symptom)
    (h : s ∈ extractSymptomsFromDb db o analysis) :
    (0.1 : ℚ) ≤ s.confidence ∧ s.confidence ≤ 1 := by
  unfold extractSymptomsFromDb at h
  split at h
  · simp at h
  · split at h
    · rw [List.mem_singleton] at h
      subst h
      constructor <;> with_unfolding_all decide
    · have h2 := mem_sortDescBy _ _ _ h
      unfold extractWithDefaults at h2
      split at h2
      · split at h2 <;> rw [List.mem_singleton] at h2 <;> subst h2 <;>
          exact ⟨by with_unfolding_all decide, by with_unfolding_all decide⟩
      · have h3 := mem_dedupSymptoms _ _ h2
        unfold extractCollected at h3
        rw [List.mem_map] at h3
        obtain ⟨m, _, rfl⟩ := h3
        exact calculateSymptomConfidenceWithDb_bounds db
          (pySlice (pyLower analysis) m.start m.stop) m.name (pyLower analysis)

/-- Witness for C9 at a concrete healthy-text extraction. -/
theorem symptom_confidence_in_unit_interval_witness :
    healthySymptom ∈ extractSymptomsFromDb plantConditions
      { healthy := true, definitive := false, implicit := false, regexMatches := [] }
      "The plant appears healthy today." ∧
    ((0.1 : ℚ) ≤ healthySymptom.confidence ∧ healthySymptom.confidence ≤ 1) :=
  ⟨by with_unfolding_all decide,
   symptom_confidence_in_unit_interval plantConditions
     { healthy := true, definitive := false, implicit := false, regexMatches := [] }
     "The plant appears healthy today." healthySymptom (by with_unfolding_all decide)⟩


/-! ### The knowledge-base mutation bug (claims C3 and C4) -/

def c34Text : String :=
  "Leaves show fungal infection with brown spots and lesions, some chewed leaves."

/-- The symptom-pattern matches the Python regexes produce on `c34Text`
(lowercased, 78 code points): the database patterns for the words
"spots" (40..44), "brown spots" (34..44), "lesions" (50..56),
"fungal" (12..17), "chewed" (64..69), the overridden `insect_damage`
pattern matching "chewed leaves" (64..76, via its `chewed.*leaves`
branch), and the general patterns for "fungal infection" (12..27) and
"spots"/"lesions", in pattern-table order.  A definitive-problem regex
(`fungal\\s+infection`) matches, no healthy indicator does. -/
def c34Oracle : ExtractOracle :=
  { healthy := false, definitive := true, implicit := false,
    regexMatches := [
      { name := "fungal_leaf_spot_spots", start := 40, stop := 45 },
      { name := "fungal_leaf_spot_keyword_brown_spots", start := 34, stop := 45 },
      { name := "fungal_leaf_spot_keyword_lesions", start := 50, stop := 57 },
      { name := "fungal_leaf_spot_keyword_fungal", start := 12, stop := 18 },
      { name := "rust_disease_spots", start := 40, stop := 45 },
      { name := "bacterial_spot_spots", start := 40, stop := 45 },
      { name := "bacterial_spot_keyword_lesions", start := 50, stop := 57 },
      { name := "insect_damage", start := 64, stop := 77 },
      { name := "insect_damage_chewed", start := 64, stop := 70 },
      { name := "insect_damage_keyword_chewed", start := 64, stop := 70 },
      { name := "fungal_infection", start := 12, stop := 28 },
      { name := "general_spots", start := 40, stop := 45 },
      { name := "general_spots", start := 50, stop := 57 }] }

/-- The description of the `insect_damage` record as loaded. -/
def insectDamageDescription : String :=
  "Damage caused by various insects feeding on plant leaves, stems, or roots"

/-- The description of the `fungal_leaf_spot` record as loaded. -/
def fungalLeafSpotDescription : String :=
  "Common fungal infection causing circular spots on leaves with yellow halos"

/-- C4 is refuted (code bug): the knowledge base is not read-only under
analysis.  On `c34Text`, `fungal_leaf_spot` is ranked primary and
`insect_damage` secondary, so `_apply_diagnostic_hierarchy` executes
`condition["info"]["description"] += " (possibly secondary to primary
condition)"` — and that info dict is the very object stored in
`PlantDatabase.conditions`, so the description field of the shared record has
the suffix appended after the call, permanently. -/
theorem knowledge_base_mutated_by_analysis :
    ((dbLookup plantConditions "insect_damage").map (fun i => i.description) =
      some insectDamageDescription) ∧
    ((dbLookup (processAnalysis plantConditions c34Oracle "summer" c34Text
          "general_diagnosis" "").2 "insect_damage").map (fun i => i.description) =
      some (insectDamageDescription ++ secondarySuffix)) ∧
    insectDamageDescription ++ secondarySuffix ≠ insectDamageDescription := by
  refine ⟨by decide, ?_, by decide⟩
  with_unfolding_all decide

/-- C3 is refuted (code bug): `process_analysis` is not idempotent.
Because the first call on `c34Text` permanently appends the
"possibly secondary" suffix to the shared `insect_damage` record of the
conditions table, a second call with identical
inputs — same text, same season — returns a result in which the
description of that condition carries the suffix twice, so the two returned
results differ in their possible-conditions lists. -/
theorem process_analysis_not_idempotent :
    ((processAnalysis plantConditions c34Oracle "summer" c34Text "general_diagnosis"
        "").1.possible_conditions.map (fun c => (c.name, c.info.description)) =
      [("fungal_leaf_spot", fungalLeafSpotDescription),
       ("insect_damage", insectDamageDescription ++ secondarySuffix)]) ∧
    ((processAnalysis
        (processAnalysis plantConditions c34Oracle "summer" c34Text "general_diagnosis" "").2
        c34Oracle "summer" c34Text "general_diagnosis"
        "").1.possible_conditions.map (fun c => (c.name, c.info.description)) =
      [("fungal_leaf_spot", fungalLeafSpotDescription),
       ("insect_damage", insectDamageDescription ++ secondarySuffix ++ secondarySuffix)]) ∧
    ([("fungal_leaf_spot", fungalLeafSpotDescription),
      ("insect_damage", insectDamageDescription ++ secondarySuffix)] ≠
     [("fungal_leaf_spot", fungalLeafSpotDescription),
      ("insect_damage", insectDamageDescription ++ secondarySuffix ++ secondarySuffix)]) := by
  refine ⟨?_, ?_, by decide⟩
  · with_unfolding_all decide
  · with_unfolding_all decide

end PlantDoctor
